import Mathlib

/-!
# Verification of the MLB franchise-lineage and validation pipeline

Shallow embedding of the relocation-analysis pipeline:

* `scripts/corrected_franchise_mapping.py` (`CorrectedFranchiseMapper`):
  the lineage registry, the identifier map built by `_build_lahman_mapping`,
  and the annotator `get_analysis_ready_data`;
* `scripts/franchise_mapping.py` (`FranchiseMapper`, `create_annotated_dataset`);
* `scripts/data_validation.py` (`DataValidator` checks, `check_data_completeness`);
* `scripts/final_data_validation.py` (effect-size computation in
  `validate_relocation_analysis_readiness`).

Modelling conventions:

* pandas data frames are a list of rows plus the list of column names;
  accessing a column that is not present raises `KeyError` in pandas, which is
  modelled with `Except String`, the error carrying the column name;
* machine floats (`W_pct`, tolerances) are modelled as rationals `ℚ`;
  where pandas float semantics produce `NaN`/`inf` on a zero denominator the
  translation is noted at the definition site;
* the statistics of `final_data_validation.py` (means, variances, `np.sqrt`)
  are modelled over the reals `ℝ`;
* `None`-valued cells are modelled with `Option`.
-/

/-- `RelocationEvent` from both mapping modules: one franchise relocation. -/
structure RelocationEvent where
  year : Int
  from_city : String
  to_city : String
  from_team_name : String
  to_team_name : String
  notes : String := ""
deriving Repr, DecidableEq

/-- `FranchiseLineage` from both mapping modules: the complete history of a
franchise, including all of its raw Lahman identifiers and its relocations. -/
structure FranchiseLineage where
  canonical_id : String
  current_name : String
  lahman_ids : List String
  relocations : List RelocationEvent
  founded_year : Int
  notes : String := ""
deriving Repr, DecidableEq

/-- Python `dict` lookup (`d.get(k)`): first entry with the given key.  The
registries below have pairwise-distinct keys, so first-match agrees with the
Python dict. -/
def dictGet {β : Type} : List (String × β) → String → Option β
  | [], _ => none
  | (a, b) :: rest, k => if k = a then some b else dictGet rest k

/-- The error message raised by `_build_lahman_mapping` on a duplicate
identifier (`ValueError(f"Duplicate Lahman ID {lahman_id} found in multiple
lineages")`). -/
def dupMsg (lahman_id : String) : String :=
  "Duplicate Lahman ID " ++ lahman_id ++ " found in multiple lineages"

/-- One step of `_build_lahman_mapping`: `if lahman_id in mapping: raise
ValueError(...)` else `mapping[lahman_id] = canonical_id`. -/
def insertId (mapping : List (String × String)) (canonical_id lahman_id : String) :
    Except String (List (String × String)) :=
  if (dictGet mapping lahman_id).isSome then Except.error (dupMsg lahman_id)
  else Except.ok (mapping ++ [(lahman_id, canonical_id)])

/-- Insert every `(lahman_id, canonical_id)` pair of a list in order,
checking for duplicates: the flattened core of `_build_lahman_mapping`. -/
def insertPairs (mapping : List (String × String)) (ps : List (String × String)) :
    Except String (List (String × String)) :=
  ps.foldlM (fun m p => insertId m p.2 p.1) mapping

/-- `FranchiseMapper._build_lahman_mapping` / `CorrectedFranchiseMapper.
_build_lahman_mapping`: scan every lineage's `lahman_ids`, inserting each into
one identifier-to-canonical map, raising `ValueError` on a key already
present.  The registry is passed as the (insertion-ordered) list of
`self.lineages.items()`. -/
def buildLahmanMapping (lineages : List (String × FranchiseLineage)) :
    Except String (List (String × String)) :=
  lineages.foldlM (fun m p => p.2.lahman_ids.foldlM (fun m' lid => insertId m' p.1 lid) m) []

/-- All raw identifiers of a registry, in scan order. -/
def allIds (lineages : List (String × FranchiseLineage)) : List String :=
  lineages.flatMap (fun p => p.2.lahman_ids)

/-- All `(lahman_id, canonical_id)` pairs of a registry, in scan order. -/
def flatPairs (lineages : List (String × FranchiseLineage)) : List (String × String) :=
  lineages.flatMap (fun p => p.2.lahman_ids.map (fun lid => (lid, p.1)))

/-! ## The corrected registry (`CorrectedFranchiseMapper._build_franchise_lineages`) -/

/-- Atlanta Braves lineage in the corrected registry. -/
def corrected_ATL : FranchiseLineage :=
  ⟨"ATL", "Atlanta Braves", ["ATL"],
    [⟨1953, "Boston", "Milwaukee", "Boston Braves", "Milwaukee Braves", ""⟩,
     ⟨1966, "Milwaukee", "Atlanta", "Milwaukee Braves", "Atlanta Braves", ""⟩],
    1876, "Franchise moved twice: Boston (1876-1952) → Milwaukee (1953-1965) → Atlanta (1966-present)"⟩

/-- Los Angeles Dodgers lineage in the corrected registry. -/
def corrected_LAD : FranchiseLineage :=
  ⟨"LAD", "Los Angeles Dodgers", ["LAD"],
    [⟨1958, "Brooklyn", "Los Angeles", "Brooklyn Dodgers", "Los Angeles Dodgers", ""⟩],
    1884, "Brooklyn era uses teamID BRO but franchID LAD in Lahman data"⟩

/-- San Francisco Giants lineage in the corrected registry. -/
def corrected_SFG : FranchiseLineage :=
  ⟨"SFG", "San Francisco Giants", ["SFG"],
    [⟨1958, "New York", "San Francisco", "New York Giants", "San Francisco Giants", ""⟩],
    1883, "Same year as Dodgers move to LA"⟩

/-- Oakland Athletics lineage in the corrected registry. -/
def corrected_OAK : FranchiseLineage :=
  ⟨"OAK", "Oakland Athletics", ["OAK"],
    [⟨1955, "Philadelphia", "Kansas City", "Philadelphia Athletics", "Kansas City Athletics", ""⟩,
     ⟨1968, "Kansas City", "Oakland", "Kansas City Athletics", "Oakland Athletics", ""⟩],
    1901, "Three-city franchise with planned move to Sacramento in 2025"⟩

/-- Minnesota Twins lineage in the corrected registry. -/
def corrected_MIN : FranchiseLineage :=
  ⟨"MIN", "Minnesota Twins", ["MIN"],
    [⟨1961, "Washington", "Minneapolis-St. Paul", "Washington Senators", "Minnesota Twins", ""⟩],
    1901, "Original Washington Senators franchise (1901-1960)"⟩

/-- Texas Rangers lineage in the corrected registry. -/
def corrected_TEX : FranchiseLineage :=
  ⟨"TEX", "Texas Rangers", ["TEX"],
    [⟨1972, "Washington", "Dallas-Fort Worth", "Washington Senators", "Texas Rangers", ""⟩],
    1961, "Expansion Washington Senators franchise (1961-1971), different from original Senators"⟩

/-- Baltimore Orioles lineage in the corrected registry. -/
def corrected_BAL : FranchiseLineage :=
  ⟨"BAL", "Baltimore Orioles", ["BAL"],
    [⟨1954, "St. Louis", "Baltimore", "St. Louis Browns", "Baltimore Orioles", ""⟩],
    1902, "St. Louis Browns became Baltimore Orioles"⟩

/-- Milwaukee Brewers lineage in the corrected registry. -/
def corrected_MIL : FranchiseLineage :=
  ⟨"MIL", "Milwaukee Brewers", ["MIL"],
    [⟨1970, "Seattle", "Milwaukee", "Seattle Pilots", "Milwaukee Brewers", ""⟩],
    1969, "Seattle Pilots (1969) became Milwaukee Brewers (1970), switched from AL to NL in 1998"⟩

/-- Washington Nationals lineage in the corrected registry. -/
def corrected_WSN : FranchiseLineage :=
  ⟨"WSN", "Washington Nationals", ["WSN"],
    [⟨2005, "Montreal", "Washington", "Montreal Expos", "Washington Nationals", ""⟩],
    1969, "Montreal Expos (1969-2004) became Washington Nationals (2005-present)"⟩

/-- New York Yankees lineage in the corrected registry. -/
def corrected_NYY : FranchiseLineage :=
  ⟨"NYY", "New York Yankees", ["NYY"],
    [⟨1903, "Baltimore", "New York", "Baltimore Orioles", "New York Highlanders", ""⟩],
    1901, "Original Baltimore Orioles (1901-1902) became NY Highlanders/Yankees. Different from modern Orioles."⟩

/-- Los Angeles Angels lineage in the corrected registry (no relocations). -/
def corrected_ANA : FranchiseLineage :=
  ⟨"ANA", "Los Angeles Angels", ["ANA"], [],
    1961, "Los Angeles Angels (1961-1964) → California Angels (1965-1996) → Anaheim Angels (1997-2004) → Los Angeles Angels of Anaheim (2005-2015) → Los Angeles Angels (2016-present)"⟩

/-- Miami Marlins lineage in the corrected registry (no relocations). -/
def corrected_FLA : FranchiseLineage :=
  ⟨"FLA", "Miami Marlins", ["FLA"], [],
    1993, "Florida Marlins (1993-2011) became Miami Marlins (2012-present), same city"⟩

/-- Stable franchise lineage of the corrected registry. -/
def corrected_BOS : FranchiseLineage :=
  ⟨"BOS", "Boston Red Sox", ["BOS"], [], 1901, "Boston Red Sox, stable franchise"⟩

/-- Stable franchise lineage of the corrected registry. -/
def corrected_CHC : FranchiseLineage :=
  ⟨"CHC", "Chicago Cubs", ["CHC"], [], 1876, "Chicago Cubs, stable franchise"⟩

/-- Stable franchise lineage of the corrected registry. -/
def corrected_CHW : FranchiseLineage :=
  ⟨"CHW", "Chicago White Sox", ["CHW"], [], 1901, "Chicago White Sox, stable franchise"⟩

/-- Stable franchise lineage of the corrected registry. -/
def corrected_CIN : FranchiseLineage :=
  ⟨"CIN", "Cincinnati Reds", ["CIN"], [], 1882, "Cincinnati Reds, stable franchise"⟩

/-- Stable franchise lineage of the corrected registry. -/
def corrected_CLE : FranchiseLineage :=
  ⟨"CLE", "Cleveland Guardians", ["CLE"], [], 1901, "Cleveland franchise, name changed to Guardians in 2022"⟩

/-- Stable franchise lineage of the corrected registry. -/
def corrected_DET : FranchiseLineage :=
  ⟨"DET", "Detroit Tigers", ["DET"], [], 1901, "Detroit Tigers, stable franchise"⟩

/-- Stable franchise lineage of the corrected registry. -/
def corrected_PHI : FranchiseLineage :=
  ⟨"PHI", "Philadelphia Phillies", ["PHI"], [], 1883, "Philadelphia Phillies, stable franchise"⟩

/-- Stable franchise lineage of the corrected registry. -/
def corrected_PIT : FranchiseLineage :=
  ⟨"PIT", "Pittsburgh Pirates", ["PIT"], [], 1882, "Pittsburgh Pirates, stable franchise"⟩

/-- Stable franchise lineage of the corrected registry. -/
def corrected_STL : FranchiseLineage :=
  ⟨"STL", "St. Louis Cardinals", ["STL"], [], 1882, "St. Louis Cardinals, stable franchise"⟩

/-- Expansion-team lineage of the corrected registry. -/
def corrected_ARI : FranchiseLineage :=
  ⟨"ARI", "Arizona Diamondbacks", ["ARI"], [], 1998, "Arizona Diamondbacks expansion team"⟩

/-- Expansion-team lineage of the corrected registry. -/
def corrected_COL : FranchiseLineage :=
  ⟨"COL", "Colorado Rockies", ["COL"], [], 1993, "Colorado Rockies expansion team"⟩

/-- Expansion-team lineage of the corrected registry. -/
def corrected_HOU : FranchiseLineage :=
  ⟨"HOU", "Houston Astros", ["HOU"], [], 1962, "Houston Astros, switched from NL to AL in 2013"⟩

/-- Expansion-team lineage of the corrected registry. -/
def corrected_KCR : FranchiseLineage :=
  ⟨"KCR", "Kansas City Royals", ["KCR"], [], 1969, "Kansas City Royals expansion team"⟩

/-- Expansion-team lineage of the corrected registry. -/
def corrected_NYM : FranchiseLineage :=
  ⟨"NYM", "New York Mets", ["NYM"], [], 1962, "New York Mets expansion team"⟩

/-- Expansion-team lineage of the corrected registry. -/
def corrected_SDP : FranchiseLineage :=
  ⟨"SDP", "San Diego Padres", ["SDP"], [], 1969, "San Diego Padres expansion team"⟩

/-- Expansion-team lineage of the corrected registry. -/
def corrected_SEA : FranchiseLineage :=
  ⟨"SEA", "Seattle Mariners", ["SEA"], [], 1977, "Seattle Mariners expansion team"⟩

/-- Expansion-team lineage of the corrected registry. -/
def corrected_TBD : FranchiseLineage :=
  ⟨"TBD", "Tampa Bay Rays", ["TBD"], [], 1998, "Tampa Bay Rays expansion team"⟩

/-- Expansion-team lineage of the corrected registry. -/
def corrected_TOR : FranchiseLineage :=
  ⟨"TOR", "Toronto Blue Jays", ["TOR"], [], 1977, "Toronto Blue Jays expansion team"⟩

/-- `CorrectedFranchiseMapper._build_franchise_lineages()`: the full corrected
registry as `self.lineages.items()` in dict insertion order. -/
def correctedLineages : List (String × FranchiseLineage) :=
  [("ATL", corrected_ATL), ("LAD", corrected_LAD), ("SFG", corrected_SFG),
   ("OAK", corrected_OAK), ("MIN", corrected_MIN), ("TEX", corrected_TEX),
   ("BAL", corrected_BAL), ("MIL", corrected_MIL), ("WSN", corrected_WSN),
   ("NYY", corrected_NYY), ("ANA", corrected_ANA), ("FLA", corrected_FLA),
   ("BOS", corrected_BOS), ("CHC", corrected_CHC), ("CHW", corrected_CHW),
   ("CIN", corrected_CIN), ("CLE", corrected_CLE), ("DET", corrected_DET),
   ("PHI", corrected_PHI), ("PIT", corrected_PIT), ("STL", corrected_STL),
   ("ARI", corrected_ARI), ("COL", corrected_COL), ("HOU", corrected_HOU),
   ("KCR", corrected_KCR), ("NYM", corrected_NYM), ("SDP", corrected_SDP),
   ("SEA", corrected_SEA), ("TBD", corrected_TBD), ("TOR", corrected_TOR)]

/-! ## The original registry (`FranchiseMapper._build_franchise_lineages`) -/

/-- Atlanta Braves lineage of the original registry (three raw identifiers). -/
def legacy_ATL : FranchiseLineage :=
  ⟨"ATL", "Atlanta Braves", ["BSN", "ML1", "ATL"],
    [⟨1953, "Boston", "Milwaukee", "Boston Braves", "Milwaukee Braves", ""⟩,
     ⟨1966, "Milwaukee", "Atlanta", "Milwaukee Braves", "Atlanta Braves", ""⟩],
    1876, "Franchise moved twice: Boston (1876-1952) → Milwaukee (1953-1965) → Atlanta (1966-present)"⟩

/-- Los Angeles Dodgers lineage of the original registry. -/
def legacy_LAD : FranchiseLineage :=
  ⟨"LAD", "Los Angeles Dodgers", ["BRO", "LAD", "LAN"],
    [⟨1958, "Brooklyn", "Los Angeles", "Brooklyn Dodgers", "Los Angeles Dodgers", ""⟩],
    1884, "Brooklyn era uses teamID BRO but franchID LAD in Lahman data"⟩

/-- San Francisco Giants lineage of the original registry. -/
def legacy_SFG : FranchiseLineage :=
  ⟨"SFG", "San Francisco Giants", ["NY1", "SFN"],
    [⟨1958, "New York", "San Francisco", "New York Giants", "San Francisco Giants", ""⟩],
    1883, "Same year as Dodgers move to LA"⟩

/-- Oakland Athletics lineage of the original registry. -/
def legacy_OAK : FranchiseLineage :=
  ⟨"OAK", "Oakland Athletics", ["PHA", "KC1", "OAK"],
    [⟨1955, "Philadelphia", "Kansas City", "Philadelphia Athletics", "Kansas City Athletics", ""⟩,
     ⟨1968, "Kansas City", "Oakland", "Kansas City Athletics", "Oakland Athletics", ""⟩],
    1901, "Three-city franchise with planned move to Sacramento in 2025"⟩

/-- Minnesota Twins lineage of the original registry. -/
def legacy_MIN : FranchiseLineage :=
  ⟨"MIN", "Minnesota Twins", ["WS1", "MIN"],
    [⟨1961, "Washington", "Minneapolis-St. Paul", "Washington Senators", "Minnesota Twins", ""⟩],
    1901, "Original Washington Senators franchise (1901-1960)"⟩

/-- Texas Rangers lineage of the original registry. -/
def legacy_TEX : FranchiseLineage :=
  ⟨"TEX", "Texas Rangers", ["WS2", "TEX"],
    [⟨1972, "Washington", "Dallas-Fort Worth", "Washington Senators", "Texas Rangers", ""⟩],
    1961, "Expansion Washington Senators franchise (1961-1971), different from original Senators"⟩

/-- Baltimore Orioles lineage of the original registry. -/
def legacy_BAL : FranchiseLineage :=
  ⟨"BAL", "Baltimore Orioles", ["SLA", "BAL"],
    [⟨1954, "St. Louis", "Baltimore", "St. Louis Browns", "Baltimore Orioles", ""⟩],
    1902, "St. Louis Browns became Baltimore Orioles"⟩

/-- Milwaukee Brewers lineage of the original registry. -/
def legacy_MIL : FranchiseLineage :=
  ⟨"MIL", "Milwaukee Brewers", ["SE1", "ML4", "MIL"],
    [⟨1970, "Seattle", "Milwaukee", "Seattle Pilots", "Milwaukee Brewers", ""⟩],
    1969, "Seattle Pilots (1969) became Milwaukee Brewers (1970), switched from AL to NL in 1998"⟩

/-- Washington Nationals lineage of the original registry. -/
def legacy_WSN : FranchiseLineage :=
  ⟨"WSN", "Washington Nationals", ["MON", "WAS"],
    [⟨2005, "Montreal", "Washington", "Montreal Expos", "Washington Nationals", ""⟩],
    1969, "Montreal Expos (1969-2004) became Washington Nationals (2005-present)"⟩

/-- New York Yankees lineage of the original registry. -/
def legacy_NYY : FranchiseLineage :=
  ⟨"NYY", "New York Yankees", ["BLA", "NYA"],
    [⟨1903, "Baltimore", "New York", "Baltimore Orioles", "New York Highlanders", ""⟩],
    1901, "Original Baltimore Orioles (1901-1902) became NY Highlanders/Yankees. Different from modern Orioles."⟩

/-- Houston Astros lineage of the original registry (no relocations). -/
def legacy_HOU : FranchiseLineage :=
  ⟨"HOU", "Houston Astros", ["HOU"], [],
    1962, "No city relocation, but switched from NL to AL in 2013"⟩

/-- Miami Marlins lineage of the original registry (no relocations). -/
def legacy_FLA : FranchiseLineage :=
  ⟨"FLA", "Miami Marlins", ["FLO", "MIA"], [],
    1993, "Florida Marlins (1993-2011) became Miami Marlins (2012-present), same city"⟩

/-- `FranchiseMapper._build_franchise_lineages()`: the original registry as
`self.lineages.items()` in dict insertion order. -/
def legacyLineages : List (String × FranchiseLineage) :=
  [("ATL", legacy_ATL), ("LAD", legacy_LAD), ("SFG", legacy_SFG),
   ("OAK", legacy_OAK), ("MIN", legacy_MIN), ("TEX", legacy_TEX),
   ("BAL", legacy_BAL), ("MIL", legacy_MIL), ("WSN", legacy_WSN),
   ("NYY", legacy_NYY), ("HOU", legacy_HOU), ("FLA", legacy_FLA)]

/-! ## Season rows and the Epoch Annotator -/

/-- One row of the `team_seasons.csv` table (input schema of §6): `yearID`,
`teamID`, `franchID`, `lgID`, `name`, `W`, `L`, `G`, `W_pct`.  `W_pct` is a
float in the source and is modelled as a rational. -/
structure SeasonRow where
  yearID : Int
  teamID : String
  franchID : String
  lgID : String
  name : String
  W : Int
  L : Int
  G : Int
  W_pct : ℚ
deriving Repr, DecidableEq

/-- One row of `CorrectedFranchiseMapper.get_analysis_ready_data`'s output:
the input row plus the annotation columns it assigns.  `relocation_year` and
`years_since_relocation` start as `None` (here `none`), `relocation_era` as
the string `'none'`. -/
structure AnnotatedRow where
  row : SeasonRow
  canonical_franchise : Option String
  is_relocated_franchise : Bool
  relocation_year : Option Int
  pre_relocation : Bool
  post_relocation : Bool
  years_since_relocation : Option Int
  relocation_era : String
deriving Repr, DecidableEq

/-- Python `max(lineage.relocations, key=lambda x: x.year)`: `none` on the
empty list, otherwise the first event of maximal year (Python `max` keeps the
earlier element on ties). -/
def latestRelocation : List RelocationEvent → Option RelocationEvent
  | [] => none
  | r :: rs => some (rs.foldl (fun best e => if best.year < e.year then e else best) r)

/-- The ±3-year era-window test of `get_analysis_ready_data`:
`(yearID >= relocation.year - 3) & (yearID <= relocation.year + 3)`. -/
def inEraWindow (relocYear yearID : Int) : Bool :=
  relocYear - 3 ≤ yearID ∧ yearID ≤ relocYear + 3

/-- The era loop of `get_analysis_ready_data`: for every relocation of the
lineage in list order, rows inside its ±3-year window get
`relocation_era = 'around_<year>'`; a later event in the list overwrites an
earlier label (last write wins). -/
def applyEraLabels (relocations : List RelocationEvent) (yearID : Int) (era : String) : String :=
  relocations.foldl
    (fun e r => if inEraWindow r.year yearID then "around_" ++ toString r.year else e) era

/-- The per-row effect of one iteration of the per-lineage loop in
`get_analysis_ready_data`.  A lineage without relocations is skipped
(`continue`); a row whose `canonical_franchise` is not this lineage's key is
outside every mask of the iteration and is unchanged.  Otherwise the masked
column assignments of the source act on the row's annotation fields. -/
def annotateWithLineage (canonical_id : String) (lineage : FranchiseLineage)
    (a : AnnotatedRow) : AnnotatedRow :=
  match latestRelocation lineage.relocations with
  | none => a
  | some latest =>
    if a.canonical_franchise = some canonical_id then
      { a with
        is_relocated_franchise := true
        relocation_year := some latest.year
        pre_relocation := if a.row.yearID < latest.year then true else a.pre_relocation
        post_relocation := if latest.year ≤ a.row.yearID then true else a.post_relocation
        years_since_relocation :=
          if latest.year ≤ a.row.yearID then some (a.row.yearID - latest.year)
          else a.years_since_relocation
        relocation_era := applyEraLabels lineage.relocations a.row.yearID a.relocation_era }
    else a

/-- The column initialisation of `get_analysis_ready_data`:
`canonical_franchise` from the identifier map, every relocation column at its
default. -/
def initAnnotated (canonical : Option String) (r : SeasonRow) : AnnotatedRow :=
  { row := r
    canonical_franchise := canonical
    is_relocated_franchise := false
    relocation_year := none
    pre_relocation := false
    post_relocation := false
    years_since_relocation := none
    relocation_era := "none" }

/-- `CorrectedFranchiseMapper.get_analysis_ready_data(df)`: keep only rows
whose `franchID` is a key of `self.lahman_to_canonical`, attach
`canonical_franchise`, initialise the relocation columns, then run the
per-lineage annotation loop over `self.lineages.items()`. -/
def get_analysis_ready_data (lineages : List (String × FranchiseLineage))
    (mapping : List (String × String)) (rows : List SeasonRow) : List AnnotatedRow :=
  let mapped := rows.filter (fun r => (dictGet mapping r.franchID).isSome)
  let start := mapped.map (fun r => initAnnotated (dictGet mapping r.franchID) r)
  lineages.foldl (fun acc p => acc.map (annotateWithLineage p.1 p.2)) start

/-- One row of `create_annotated_dataset`'s output (`franchise_mapping.py`):
as `AnnotatedRow` but without a `relocation_era` column, which that function
never creates. -/
structure AnnotatedRowFM where
  row : SeasonRow
  canonical_franchise : Option String
  is_relocated_franchise : Bool
  relocation_year : Option Int
  pre_relocation : Bool
  post_relocation : Bool
  years_since_relocation : Option Int
deriving Repr, DecidableEq

/-- The per-row effect of one iteration of the per-lineage loop in
`create_annotated_dataset` (identical to the corrected annotator's loop minus
the era labels). -/
def annotateWithLineageFM (canonical_id : String) (lineage : FranchiseLineage)
    (a : AnnotatedRowFM) : AnnotatedRowFM :=
  match latestRelocation lineage.relocations with
  | none => a
  | some latest =>
    if a.canonical_franchise = some canonical_id then
      { a with
        is_relocated_franchise := true
        relocation_year := some latest.year
        pre_relocation := if a.row.yearID < latest.year then true else a.pre_relocation
        post_relocation := if latest.year ≤ a.row.yearID then true else a.post_relocation
        years_since_relocation :=
          if latest.year ≤ a.row.yearID then some (a.row.yearID - latest.year)
          else a.years_since_relocation }
    else a

/-- The column initialisation of `create_annotated_dataset`. -/
def initAnnotatedFM (canonical : Option String) (r : SeasonRow) : AnnotatedRowFM :=
  { row := r
    canonical_franchise := canonical
    is_relocated_franchise := false
    relocation_year := none
    pre_relocation := false
    post_relocation := false
    years_since_relocation := none }

/-- `create_annotated_dataset(df, mapper)` from `franchise_mapping.py`: maps
`franchID` through `mapper.lahman_to_canonical` (unmatched rows keep a `NaN`
canonical, modelled as `none`), keeps every row, and runs the same
per-lineage annotation loop.  No filtering happens here. -/
def create_annotated_dataset (lineages : List (String × FranchiseLineage))
    (mapping : List (String × String)) (rows : List SeasonRow) : List AnnotatedRowFM :=
  let start := rows.map (fun r => initAnnotatedFM (dictGet mapping r.franchID) r)
  lineages.foldl (fun acc p => acc.map (annotateWithLineageFM p.1 p.2)) start

/-- The successfully built identifier map of `CorrectedFranchiseMapper`
(`self.lahman_to_canonical`); `correctedMapping_spec` below shows the build
succeeds with exactly this value. -/
def correctedMapping : List (String × String) :=
  flatPairs correctedLineages

/-- `CorrectedFranchiseMapper.__init__` succeeds: `_build_lahman_mapping`
returns `correctedMapping` without raising. -/
theorem correctedMapping_spec :
    buildLahmanMapping correctedLineages = Except.ok correctedMapping := rfl

/-- The successfully built identifier map of `FranchiseMapper`. -/
def legacyMapping : List (String × String) :=
  flatPairs legacyLineages

/-- `FranchiseMapper.__init__` succeeds: `_build_lahman_mapping` returns
`legacyMapping` without raising. -/
theorem legacyMapping_spec :
    buildLahmanMapping legacyLineages = Except.ok legacyMapping := rfl

/-! ## The Validation Engine (`data_validation.py`) -/

/-- A pandas data frame: its column names plus its rows.  A `SeasonRow` field
is meaningful only when the matching column name is present; accessing an
absent column raises `KeyError`.  Null cells are not modelled: the embedding
considers null-free frames, so the source's per-column null counts are
identically zero. -/
structure DataFrame where
  cols : List String
  rows : List SeasonRow
deriving Repr, DecidableEq

/-- `ValidationResult` from `data_validation.py`: check name, status
(`'pass' | 'warning' | 'fail'`), message.  Of the loosely typed `details`
payloads only the statistical-sufficiency one is modelled (as a separate
value, see `franchiseDataCounts`); the others are dropped, which no claim
observes. -/
structure ValidationResult where
  check_name : String
  status : String
  message : String
deriving Repr, DecidableEq

/-- pandas column access `df['c']`: `KeyError` when the column is absent. -/
def requireCol (df : DataFrame) (c : String) : Except String Unit :=
  if c ∈ df.cols then Except.ok () else Except.error ("KeyError: " ++ c)

/-- `abs(G - (W + L)) > 1`: games/recomputed-games mismatch beyond the
1-game tolerance. -/
def gMismatch (r : SeasonRow) : Bool :=
  1 < |r.G - (r.W + r.L)|

/-- `abs(W_pct - W / (W + L)) > 0.01`: stored/recomputed win-percentage
mismatch beyond the 0.01 tolerance.  In the float source a zero denominator
gives `W / 0 = ±inf` (comparison true) for `W ≠ 0` and `0 / 0 = NaN`
(comparison false) for `W = 0`; the rational model states that case
explicitly. -/
def pctMismatch (r : SeasonRow) : Bool :=
  if r.W + r.L = 0 then r.W ≠ 0
  else 1 / 100 < |r.W_pct - (r.W : ℚ) / ((r.W + r.L : Int) : ℚ)|

/-- The calculation-accuracy block of `validate_basic_data_quality`: count the
rows failing either tolerance; any mismatch is a `warning` (never a `fail`),
otherwise `pass`. -/
def calcAccuracyFinding (rows : List SeasonRow) : ValidationResult :=
  let g_errors := rows.countP gMismatch
  let pct_errors := rows.countP pctMismatch
  if 0 < g_errors ∨ 0 < pct_errors then
    ⟨"calculation_accuracy", "warning",
      "Calculation mismatches: " ++ toString g_errors ++ " games, "
        ++ toString pct_errors ++ " win percentages"⟩
  else
    ⟨"calculation_accuracy", "pass", "Win percentage calculations are accurate"⟩

/-- The required input columns checked by `validate_basic_data_quality`. -/
def requiredCols : List String :=
  ["yearID", "teamID", "franchID", "lgID", "name", "W", "L", "G", "W_pct"]

/-- `DataValidator.validate_basic_data_quality`: required-column check
(fail naming the missing columns), null check (always pass in the null-free
embedding), and, only when `W`, `L`, `G`, `W_pct` are all present, the
calculation-accuracy check.  This check never touches an absent column, so it
cannot raise. -/
def validate_basic_data_quality (df : DataFrame) : List ValidationResult :=
  let missing_cols := requiredCols.filter (fun c => c ∉ df.cols)
  let colFinding : ValidationResult :=
    if missing_cols.isEmpty then
      ⟨"required_columns", "pass", "All required columns present"⟩
    else
      ⟨"required_columns", "fail", "Missing required columns: " ++ toString missing_cols⟩
  let nullFinding : ValidationResult :=
    ⟨"null_values", "pass", "No null values in critical columns"⟩
  let calcFindings : List ValidationResult :=
    if ["W", "L", "G", "W_pct"].all (fun c => c ∈ df.cols) then [calcAccuracyFinding df.rows]
    else []
  [colFinding, nullFinding] ++ calcFindings

/-- `DataValidator.validate_historical_accuracy`: year-range checks, modern
game-count checks, impossible and extreme win-percentage checks.  Each
`df[...]` column access is guarded by `requireCol` exactly where the source
evaluates it (`df['yearID'].min()` runs unconditionally, the `G` accesses
only when non-strike modern rows exist, the detail projections only when the
offending subset is non-empty).  `current_year` (`datetime.now().year`) is a
parameter. -/
def validate_historical_accuracy (df : DataFrame) (current_year : Int) :
    Except String (List ValidationResult) := do
  let _ ← requireCol df "yearID"
  let min_year := (df.rows.map (fun r => r.yearID)).min?
  let max_year := (df.rows.map (fun r => r.yearID)).max?
  let minFindings : List ValidationResult :=
    match min_year with
    | some m =>
      if m < 1871 then
        [⟨"year_range", "warning",
          "Data includes years before 1871 (first professional season): " ++ toString m⟩]
      else []
    | none => []
  let maxFindings : List ValidationResult :=
    match max_year with
    | some m =>
      if current_year < m then
        [⟨"year_range", "fail", "Data includes future years: " ++ toString m⟩]
      else []
    | none => []
  let modern_era := df.rows.filter (fun r => 1961 ≤ r.yearID)
  let gameFindings ← do
    if modern_era.isEmpty then pure ([] : List ValidationResult)
    else do
      let normal_modern := modern_era.filter
        (fun r => ¬ (r.yearID = 1981 ∨ r.yearID = 1994 ∨ r.yearID = 2020))
      if normal_modern.isEmpty then pure []
      else do
        let _ ← requireCol df "G"
        let low_games := normal_modern.filter (fun r => r.G < 160)
        let high_games := normal_modern.filter (fun r => 164 < r.G)
        let lowF ← do
          if low_games.isEmpty then pure ([] : List ValidationResult)
          else do
            let _ ← requireCol df "teamID"
            pure [⟨"game_counts", "warning",
              toString low_games.length ++ " modern seasons with unusually low game counts"⟩]
        let highF ← do
          if high_games.isEmpty then pure ([] : List ValidationResult)
          else do
            let _ ← requireCol df "teamID"
            pure [⟨"game_counts", "warning",
              toString high_games.length ++ " modern seasons with unusually high game counts"⟩]
        pure (lowF ++ highF)
  let _ ← requireCol df "W_pct"
  let impossible_pct := df.rows.filter (fun r => r.W_pct < 0 ∨ 1 < r.W_pct)
  let impFindings ← do
    if impossible_pct.isEmpty then pure ([] : List ValidationResult)
    else do
      let _ ← requireCol df "teamID"
      pure [⟨"win_percentages", "fail",
        toString impossible_pct.length ++ " seasons with impossible win percentages"⟩]
  let extreme_records := df.rows.filter (fun r => r.W_pct < 1 / 5 ∨ 4 / 5 < r.W_pct)
  let extFindings ← do
    if extreme_records.isEmpty then pure ([] : List ValidationResult)
    else do
      let _ ← requireCol df "teamID"
      let _ ← requireCol df "name"
      pure [⟨"extreme_records", "warning",
        toString extreme_records.length
          ++ " seasons with extreme win percentages (< 20% or > 80%)"⟩]
  pure (minFindings ++ maxFindings ++ gameFindings ++ impFindings ++ extFindings)

/-- Stable sort of rows by `yearID` (`franchise_data.sort_values('yearID')`),
as an insertion sort. -/
def sortByYear (rows : List SeasonRow) : List SeasonRow :=
  let rec insert (r : SeasonRow) : List SeasonRow → List SeasonRow
    | [] => [r]
    | x :: xs => if x.yearID ≤ r.yearID then x :: insert r xs else r :: x :: xs
  rows.foldr insert []

/-- The per-relocation body of `validate_franchise_continuity`: the rows of
the year before and at the relocation boundary; when both exist, the ATL-1953
identifier-change expectation and the league-consistency check (whitelisting
`HOU`).  `lgID` is only read in the both-rows-exist branch. -/
def continuityForRelocation (df : DataFrame) (canonical_id : String)
    (sorted : List SeasonRow) (relocation : RelocationEvent) :
    Except String (List ValidationResult) := do
  let pre_reloc := sorted.filter (fun r => r.yearID = relocation.year - 1)
  let post_reloc := sorted.filter (fun r => r.yearID = relocation.year)
  match pre_reloc, post_reloc with
  | p :: _, q :: _ => do
    let atlF : List ValidationResult :=
      if canonical_id = "ATL" ∧ relocation.year = 1953 ∧ p.franchID = q.franchID then
        [⟨"franchise_id_continuity", "warning",
          canonical_id ++ ": franchID did not change at " ++ toString relocation.year
            ++ " relocation"⟩]
      else []
    let _ ← requireCol df "lgID"
    let lgF : List ValidationResult :=
      if p.lgID ≠ q.lgID ∧ canonical_id ≠ "HOU" then
        [⟨"league_continuity", "warning",
          canonical_id ++ ": League changed from " ++ p.lgID ++ " to " ++ q.lgID
            ++ " at " ++ toString relocation.year⟩]
      else []
    pure (atlF ++ lgF)
  | _, _ => pure []

/-- `DataValidator.validate_franchise_continuity`: for every lineage, filter
its rows by raw identifier, sort by year, and check each relocation
boundary. -/
def validate_franchise_continuity (df : DataFrame)
    (lineages : List (String × FranchiseLineage)) :
    Except String (List ValidationResult) :=
  lineages.foldlM
    (fun acc p => do
      let _ ← requireCol df "franchID"
      let franchise_data := df.rows.filter (fun r => p.2.lahman_ids.contains r.franchID)
      if franchise_data.isEmpty then pure acc
      else do
        let _ ← requireCol df "yearID"
        let sorted := sortByYear franchise_data
        p.2.relocations.foldlM
          (fun acc2 rel => do
            let fs ← continuityForRelocation df p.1 sorted rel
            pure (acc2 ++ fs))
          acc)
    []

/-- The `known_facts` table of `validate_against_external_sources`:
`(year, teamID, expected_wins, expected_losses, description)`. -/
def knownFacts : List (Int × String × Int × Int × String) :=
  [(1906, "CHN", 116, 36, "Cubs record-setting season"),
   (1962, "NYN", 40, 120, "Mets worst season"),
   (2001, "SEA", 116, 46, "Mariners tied AL record"),
   (1899, "CL4", 20, 134, "Cleveland Spiders worst record ever")]

/-- One iteration of `validate_against_external_sources`: match the fact's
year and team; a missing row is a `warning`, a wins/losses mismatch a `fail`
whose message cites the expected record, a match a `pass`.  `W` and `L` are
read (for the comparison or for the message) only when a matching row
exists. -/
def checkFact (df : DataFrame) (fact : Int × String × Int × Int × String) :
    Except String ValidationResult := do
  let (year, team_id, exp_w, exp_l, description) := fact
  let _ ← requireCol df "yearID"
  let _ ← requireCol df "teamID"
  let matching_rows := df.rows.filter (fun r => r.yearID = year ∧ r.teamID = team_id)
  match matching_rows with
  | [] =>
    pure ⟨"historical_facts", "warning",
      "Missing data for known historical fact: " ++ description
        ++ " (" ++ toString year ++ ")"⟩
  | row :: _ => do
    let _ ← requireCol df "W"
    let _ ← requireCol df "L"
    if row.W ≠ exp_w ∨ row.L ≠ exp_l then
      pure ⟨"historical_facts", "fail",
        "Historical fact mismatch: " ++ description ++ " - Expected "
          ++ toString exp_w ++ "-" ++ toString exp_l ++ ", got "
          ++ toString row.W ++ "-" ++ toString row.L⟩
    else
      pure ⟨"historical_facts", "pass",
        "Confirmed historical fact: " ++ description⟩

/-- `DataValidator.validate_against_external_sources`: check every known
fact in order, appending each finding to the results list. -/
def validate_against_external_sources (df : DataFrame) :
    Except String (List ValidationResult) :=
  knownFacts.foldlM
    (fun results fact => do
      let r ← checkFact df fact
      pure (results ++ [r]))
    []

/-- `DataValidator.run_all_validations(df, mapper)`: the four check
categories, each list of findings keyed by its category name, evaluated in
the order of the source's dict literal.  A `KeyError` raised by any check
aborts the whole run. -/
def run_all_validations (df : DataFrame) (lineages : List (String × FranchiseLineage))
    (current_year : Int) : Except String (List (String × List ValidationResult)) := do
  let basic := validate_basic_data_quality df
  let hist ← validate_historical_accuracy df current_year
  let cont ← validate_franchise_continuity df lineages
  let ext ← validate_against_external_sources df
  pure [("basic_quality", basic), ("historical_accuracy", hist),
        ("franchise_continuity", cont), ("external_validation", ext)]

/-! ## Statistical sufficiency (`check_data_completeness`) -/

/-- One entry of the `insufficient_data` list built by
`check_data_completeness` (its `details` payload): per relocated franchise,
the primary relocation year, the pre/post season counts, and the
sufficiency flag. -/
structure FranchiseDataCount where
  franchise : String
  relocation_year : Int
  pre_seasons : Nat
  post_seasons : Nat
  sufficient_for_analysis : Bool
deriving Repr, DecidableEq

/-- The loop body of `check_data_completeness` for one lineage: skip
lineages without relocations and lineages without data; otherwise split that
franchise's rows at the most recent relocation year and record the counts,
flagged insufficient when either side has fewer than
`MIN_SEASONS_PRE = MIN_SEASONS_POST = 10` seasons.  Column presence
(`franchID`, `yearID`) is assumed here; this function is only reached from
`run_comprehensive_validation` after the same frame fed the other checks. -/
def countFor (rows : List SeasonRow) (canonical_id : String) (lineage : FranchiseLineage) :
    Option FranchiseDataCount :=
  if lineage.relocations.isEmpty then none
  else
    let franchise_data := rows.filter (fun r => lineage.lahman_ids.contains r.franchID)
    if franchise_data.isEmpty then none
    else
      match latestRelocation lineage.relocations with
      | none => none
      | some latest =>
        let pre_count := (franchise_data.filter (fun r => r.yearID < latest.year)).length
        let post_count := (franchise_data.filter (fun r => latest.year ≤ r.yearID)).length
        if pre_count < 10 ∨ post_count < 10 then
          some ⟨canonical_id, latest.year, pre_count, post_count, false⟩
        else
          some ⟨canonical_id, latest.year, pre_count, post_count, true⟩

/-- The full `insufficient_data` list of `check_data_completeness` (one entry
per relocated franchise with data, sufficient or not). -/
def franchiseDataCounts (lineages : List (String × FranchiseLineage))
    (rows : List SeasonRow) : List FranchiseDataCount :=
  lineages.filterMap (fun p => countFor rows p.1 p.2)

/-- The aggregate finding of `check_data_completeness`: a single `warning`
when any relocated franchise lacks 10 seasons on either side of its primary
relocation, a single `pass` otherwise. -/
def check_data_completeness (lineages : List (String × FranchiseLineage))
    (rows : List SeasonRow) : List ValidationResult :=
  let counts := franchiseDataCounts lineages rows
  let insufficient_count :=
    (counts.filter (fun d => d.sufficient_for_analysis = false)).length
  if 0 < insufficient_count then
    [⟨"statistical_sufficiency", "warning",
      toString insufficient_count
        ++ " franchises have insufficient data for robust statistical analysis"⟩]
  else
    [⟨"statistical_sufficiency", "pass",
      "All relocated franchises have sufficient data for statistical analysis"⟩]

/-! ## Effect sizes (`final_data_validation.py`)

`validate_relocation_analysis_readiness` computes, per relocated franchise,
the mean and the sample variance (`pandas` default `ddof=1`) of the pre- and
post-relocation `W_pct` series, a pooled standard deviation, and, when that
deviation is positive, Cohen's d with a banded magnitude.  Modelled over `ℝ`
(the source computes with floats); division by zero follows the Lean real
convention `x / 0 = 0`, which only matters for degenerate one-element
samples where pandas produces `NaN` and reaches the same `'unknown'`
branch. -/

/-- `series.mean()`: the mean of a `W_pct` series. -/
noncomputable def seriesMean (xs : List ℝ) : ℝ :=
  xs.sum / xs.length

/-- `series.var()` with the pandas default `ddof=1`: sample variance. -/
noncomputable def seriesVar (xs : List ℝ) : ℝ :=
  ((xs.map (fun x => (x - seriesMean xs) ^ 2)).sum) / ((xs.length : ℝ) - 1)

/-- `pooled_std = np.sqrt(((n1-1)*var1 + (n2-1)*var2) / (n1+n2-2))`. -/
noncomputable def pooledStd (pre post : List ℝ) : ℝ :=
  Real.sqrt ((((pre.length : ℝ) - 1) * seriesVar pre
      + ((post.length : ℝ) - 1) * seriesVar post)
    / ((pre.length : ℝ) + (post.length : ℝ) - 2))

/-- `cohens_d = (post_avg_wpct - pre_avg_wpct) / pooled_std`. -/
noncomputable def cohensD (pre post : List ℝ) : ℝ :=
  (seriesMean post - seriesMean pre) / pooledStd pre post

/-- The `effect_magnitude` banding: `'large'` for `|d| ≥ 0.8`, `'medium'`
for `|d| ≥ 0.5`, `'small'` for `|d| ≥ 0.2`, else `'negligible'`. -/
noncomputable def effectMagnitude (d : ℝ) : String :=
  if 0.8 ≤ |d| then "large"
  else if 0.5 ≤ |d| then "medium"
  else if 0.2 ≤ |d| then "small"
  else "negligible"

/-- The guarded effect-size fields of `franchise_analysis`: under
`pooled_std > 0` the pair `(effect_size, effect_magnitude)` is
`(some cohens_d, band)`; otherwise `(None, 'unknown')` and the quotient is
never formed. -/
noncomputable def effectFields (pre post : List ℝ) : Option ℝ × String :=
  if 0 < pooledStd pre post then
    (some (cohensD pre post), effectMagnitude (cohensD pre post))
  else
    (none, "unknown")

/-! ## Lemmas: the identifier map build -/

theorem exceptErrorBind {α β : Type} (e : String) (f : α → Except String β) :
    (Except.error e >>= f) = Except.error e := rfl

theorem exceptOkBind {α β : Type} (a : α) (f : α → Except String β) :
    (Except.ok a >>= f) = f a := rfl

theorem dictGet_isSome_iff {β : Type} (m : List (String × β)) (k : String) :
    (dictGet m k).isSome = true ↔ k ∈ m.map Prod.fst := by
  induction m with
  | nil => simp [dictGet]
  | cons p rest ih =>
    obtain ⟨a, b⟩ := p
    by_cases h : k = a <;> simp [dictGet, h, ih]

theorem insertId_ok (m : List (String × String)) (cid lid : String)
    (m1 : List (String × String)) (h : insertId m cid lid = Except.ok m1) :
    m1 = m ++ [(lid, cid)] ∧ lid ∉ m.map Prod.fst := by
  unfold insertId at h
  split at h
  · cases h
  · next hns =>
    cases h
    exact ⟨rfl, fun hmem => hns ((dictGet_isSome_iff m lid).mpr hmem)⟩

theorem insertId_error (m : List (String × String)) (cid lid : String)
    (e : String) (h : insertId m cid lid = Except.error e) :
    e = dupMsg lid ∧ lid ∈ m.map Prod.fst := by
  unfold insertId at h
  split at h
  · next hs =>
    cases h
    exact ⟨rfl, (dictGet_isSome_iff m lid).mp hs⟩
  · cases h

theorem insertPairs_map_ids (cid : String) (xs : List String)
    (m : List (String × String)) :
    insertPairs m (xs.map fun lid => (lid, cid))
      = xs.foldlM (fun m' lid => insertId m' cid lid) m := by
  induction xs generalizing m with
  | nil => rfl
  | cons x xs ih =>
    simp only [List.map_cons, insertPairs, List.foldlM_cons]
    cases hx : insertId m cid x with
    | error e => rw [exceptErrorBind, exceptErrorBind]
    | ok m1 =>
      rw [exceptOkBind, exceptOkBind]
      exact ih m1

theorem insertPairs_append (m : List (String × String)) (ps qs : List (String × String)) :
    insertPairs m (ps ++ qs)
      = insertPairs m ps >>= fun m1 => insertPairs m1 qs := by
  simp [insertPairs, List.foldlM_append]

theorem buildLahmanMapping_eq_insertPairs (lineages : List (String × FranchiseLineage)) :
    buildLahmanMapping lineages = insertPairs [] (flatPairs lineages) := by
  suffices h : ∀ m, lineages.foldlM
      (fun m p => p.2.lahman_ids.foldlM (fun m' lid => insertId m' p.1 lid) m) m
      = insertPairs m (flatPairs lineages) by
    exact h []
  induction lineages with
  | nil => intro m; rfl
  | cons p rest ih =>
    intro m
    simp only [List.foldlM_cons, flatPairs, List.flatMap_cons]
    rw [insertPairs_append, ← insertPairs_map_ids p.1 p.2.lahman_ids m]
    cases hx : insertPairs m (p.2.lahman_ids.map fun lid => (lid, p.1)) with
    | error e => rw [exceptErrorBind, exceptErrorBind]
    | ok m1 =>
      rw [exceptOkBind, exceptOkBind]
      exact ih m1

theorem insertPairs_ok_eq (m : List (String × String)) (ps : List (String × String))
    (m' : List (String × String)) (h : insertPairs m ps = Except.ok m') :
    m' = m ++ ps := by
  induction ps generalizing m with
  | nil =>
    have h' : (Except.ok m : Except String (List (String × String))) = Except.ok m' := h
    cases h'
    simp
  | cons p rest ih =>
    simp only [insertPairs, List.foldlM_cons] at h
    cases hx : insertId m p.2 p.1 with
    | error e =>
      rw [hx, exceptErrorBind] at h
      exact Except.noConfusion h
    | ok m1 =>
      rw [hx, exceptOkBind] at h
      obtain ⟨hm1, -⟩ := insertId_ok m p.2 p.1 m1 hx
      rw [hm1] at h
      have := ih (m ++ [(p.1, p.2)]) h
      simpa [List.append_assoc] using this

theorem insertPairs_ok_nodup (m : List (String × String)) (ps : List (String × String))
    (m' : List (String × String)) (h : insertPairs m ps = Except.ok m')
    (hm : (m.map Prod.fst).Nodup) : ((m ++ ps).map Prod.fst).Nodup := by
  induction ps generalizing m with
  | nil => simpa using hm
  | cons p rest ih =>
    simp only [insertPairs, List.foldlM_cons] at h
    cases hx : insertId m p.2 p.1 with
    | error e =>
      rw [hx, exceptErrorBind] at h
      exact Except.noConfusion h
    | ok m1 =>
      rw [hx, exceptOkBind] at h
      obtain ⟨hm1, hnot⟩ := insertId_ok m p.2 p.1 m1 hx
      rw [hm1] at h
      have hm1nodup : ((m ++ [(p.1, p.2)]).map Prod.fst).Nodup := by
        have : (m.map Prod.fst ++ [p.1]).Nodup := by
          simp [List.nodup_append, hm, hnot]
        simpa using this
      have := ih (m ++ [(p.1, p.2)]) h hm1nodup
      simpa [List.append_assoc] using this

theorem insertPairs_error (m : List (String × String)) (ps : List (String × String))
    (e : String) (h : insertPairs m ps = Except.error e) :
    ∃ d, e = dupMsg d ∧ 2 ≤ ((m ++ ps).map Prod.fst).count d := by
  induction ps generalizing m with
  | nil =>
    have h' : (Except.ok m : Except String (List (String × String))) = Except.error e := h
    exact Except.noConfusion h'
  | cons p rest ih =>
    simp only [insertPairs, List.foldlM_cons] at h
    cases hx : insertId m p.2 p.1 with
    | error e1 =>
      rw [hx, exceptErrorBind] at h
      obtain ⟨he, hmem⟩ := insertId_error m p.2 p.1 e1 hx
      have he1 : e1 = e := by injection h
      refine ⟨p.1, he1 ▸ he, ?_⟩
      have h1 : 1 ≤ (m.map Prod.fst).count p.1 := List.count_pos_iff.mpr hmem
      have h2 : 1 ≤ ((p :: rest).map Prod.fst).count p.1 := by
        simp [List.count_cons_self]
      calc 2 ≤ (m.map Prod.fst).count p.1 + ((p :: rest).map Prod.fst).count p.1 := by
            omega
        _ = ((m ++ p :: rest).map Prod.fst).count p.1 := by
            simp [List.count_append]
    | ok m1 =>
      rw [hx, exceptOkBind] at h
      obtain ⟨hm1, -⟩ := insertId_ok m p.2 p.1 m1 hx
      rw [hm1] at h
      obtain ⟨d, hd, hcount⟩ := ih (m ++ [(p.1, p.2)]) h
      refine ⟨d, hd, ?_⟩
      have heq : ((m ++ [(p.1, p.2)]) ++ rest).map Prod.fst
          = (m ++ p :: rest).map Prod.fst := by
        simp [List.append_assoc]
      rw [heq] at hcount
      exact hcount

theorem allIds_eq_keys_flatPairs (lineages : List (String × FranchiseLineage)) :
    allIds lineages = (flatPairs lineages).map Prod.fst := by
  induction lineages with
  | nil => rfl
  | cons p rest ih =>
    simp only [allIds, flatPairs, List.flatMap_cons, List.map_append] at *
    rw [ih]
    congr 1
    rw [List.map_map]
    have hcomp : (Prod.fst ∘ fun lid => (lid, p.1)) = (id : String → String) := rfl
    rw [hcomp, List.map_id]

theorem allIds_eq_flatten (lineages : List (String × FranchiseLineage)) :
    allIds lineages = (lineages.map (fun p => p.2.lahman_ids)).flatten := by
  simp [allIds, List.flatMap_def]

/-- C1: constructing a registry whose lineages' identifier sets are not
pairwise disjoint makes `_build_lahman_mapping` raise the fatal
`Duplicate Lahman ID ...` error naming an identifier that is duplicated in
the scan; conversely, every successful construction yields exactly the map
of all `(identifier, canonical)` pairs, its keys are globally duplicate-free,
and the lineages' identifier sets are pairwise disjoint, so the
identifier-to-canonical map is well defined. -/
theorem c1_identifier_map_uniqueness (lineages : List (String × FranchiseLineage)) :
    (¬ (lineages.map (fun p => p.2.lahman_ids)).Pairwise List.Disjoint →
      ∃ d, buildLahmanMapping lineages = Except.error (dupMsg d)
        ∧ 2 ≤ (allIds lineages).count d) ∧
    (∀ m, buildLahmanMapping lineages = Except.ok m →
      m = flatPairs lineages ∧ (allIds lineages).Nodup
        ∧ (lineages.map (fun p => p.2.lahman_ids)).Pairwise List.Disjoint) := by
  constructor
  · intro hnp
    have hnotnodup : ¬ (allIds lineages).Nodup := by
      rw [allIds_eq_flatten, List.nodup_flatten]
      intro hx
      exact hnp hx.2
    cases hb : buildLahmanMapping lineages with
    | ok m =>
      exfalso
      have hb' := hb
      rw [buildLahmanMapping_eq_insertPairs] at hb'
      have hnd := insertPairs_ok_nodup [] (flatPairs lineages) m hb' (by simp)
      rw [List.nil_append] at hnd
      rw [allIds_eq_keys_flatPairs] at hnotnodup
      exact hnotnodup hnd
    | error e =>
      have hb' := hb
      rw [buildLahmanMapping_eq_insertPairs] at hb'
      obtain ⟨d, hd, hc⟩ := insertPairs_error [] (flatPairs lineages) e hb'
      refine ⟨d, ?_, ?_⟩
      · rw [hd]
      · rw [allIds_eq_keys_flatPairs]
        simpa using hc
  · intro m hm
    have hb' := hm
    rw [buildLahmanMapping_eq_insertPairs] at hb'
    have hmeq := insertPairs_ok_eq [] (flatPairs lineages) m hb'
    have hnd := insertPairs_ok_nodup [] (flatPairs lineages) m hb' (by simp)
    rw [List.nil_append] at hmeq hnd
    have hids : (allIds lineages).Nodup := by
      rw [allIds_eq_keys_flatPairs]
      exact hnd
    refine ⟨hmeq, hids, ?_⟩
    have hflat := hids
    rw [allIds_eq_flatten, List.nodup_flatten] at hflat
    exact hflat.2

/-- A two-lineage registry whose identifier sets overlap on `XX1`. -/
def clashLineageA : FranchiseLineage := ⟨"AAA", "Team A", ["XX1"], [], 1900, ""⟩

/-- Second lineage of the clashing registry, reusing identifier `XX1`. -/
def clashLineageB : FranchiseLineage := ⟨"BBB", "Team B", ["XX1"], [], 1901, ""⟩

/-- The clashing registry. -/
def clashRegistry : List (String × FranchiseLineage) :=
  [("AAA", clashLineageA), ("BBB", clashLineageB)]

theorem clashRegistry_not_pairwise :
    ¬ (clashRegistry.map (fun p => p.2.lahman_ids)).Pairwise List.Disjoint := by
  intro h
  simp only [clashRegistry, clashLineageA, clashLineageB, List.map_cons, List.map_nil,
    List.pairwise_cons] at h
  exact h.1 ["XX1"] (by simp) (show "XX1" ∈ ["XX1"] by simp) (by simp)

/-- Witness for C1: the clashing registry is not pairwise disjoint and its
build raises the duplicate-identifier error; the real corrected registry
builds successfully, so its identifier sets are pairwise disjoint. -/
theorem c1_identifier_map_uniqueness_witness :
    (¬ (clashRegistry.map (fun p => p.2.lahman_ids)).Pairwise List.Disjoint) ∧
    (∃ d, buildLahmanMapping clashRegistry = Except.error (dupMsg d)
      ∧ 2 ≤ (allIds clashRegistry).count d) ∧
    ((allIds correctedLineages).Nodup
      ∧ (correctedLineages.map (fun p => p.2.lahman_ids)).Pairwise List.Disjoint) :=
  ⟨clashRegistry_not_pairwise,
   (c1_identifier_map_uniqueness clashRegistry).1 clashRegistry_not_pairwise,
   ⟨((c1_identifier_map_uniqueness correctedLineages).2 correctedMapping rfl).2.1,
    ((c1_identifier_map_uniqueness correctedLineages).2 correctedMapping rfl).2.2⟩⟩

/-! ## Lemmas: the Epoch Annotator -/

/-- The per-lineage loop of `get_analysis_ready_data` as a per-row fold. -/
def annotateRowAll (lineages : List (String × FranchiseLineage)) (a : AnnotatedRow) :
    AnnotatedRow :=
  lineages.foldl (fun b p => annotateWithLineage p.1 p.2 b) a

theorem foldl_map_comm {α β : Type} (f : β → α → α) (lins : List β) (init : List α) :
    lins.foldl (fun acc p => acc.map (f p)) init
      = init.map (fun a => lins.foldl (fun b p => f p b) a) := by
  induction lins generalizing init with
  | nil => simp
  | cons p rest ih =>
    simp only [List.foldl_cons]
    rw [ih (init.map (f p)), List.map_map]
    rfl

theorem get_analysis_ready_data_eq (lineages : List (String × FranchiseLineage))
    (mapping : List (String × String)) (rows : List SeasonRow) :
    get_analysis_ready_data lineages mapping rows
      = (rows.filter (fun r => (dictGet mapping r.franchID).isSome)).map
          (fun r => annotateRowAll lineages (initAnnotated (dictGet mapping r.franchID) r)) := by
  unfold get_analysis_ready_data
  rw [foldl_map_comm, List.map_map]
  rfl

theorem create_annotated_dataset_eq (lineages : List (String × FranchiseLineage))
    (mapping : List (String × String)) (rows : List SeasonRow) :
    create_annotated_dataset lineages mapping rows
      = rows.map (fun r =>
          lineages.foldl (fun b p => annotateWithLineageFM p.1 p.2 b)
            (initAnnotatedFM (dictGet mapping r.franchID) r)) := by
  unfold create_annotated_dataset
  rw [foldl_map_comm, List.map_map]
  rfl

theorem annotateWithLineage_row (cid : String) (lin : FranchiseLineage) (a : AnnotatedRow) :
    (annotateWithLineage cid lin a).row = a.row := by
  unfold annotateWithLineage
  cases latestRelocation lin.relocations with
  | none => rfl
  | some latest => dsimp only; split <;> rfl

theorem annotateWithLineage_canonical (cid : String) (lin : FranchiseLineage)
    (a : AnnotatedRow) :
    (annotateWithLineage cid lin a).canonical_franchise = a.canonical_franchise := by
  unfold annotateWithLineage
  cases latestRelocation lin.relocations with
  | none => rfl
  | some latest => dsimp only; split <;> rfl

theorem annotateWithLineage_skip (cid : String) (lin : FranchiseLineage) (a : AnnotatedRow)
    (h : a.canonical_franchise ≠ some cid) : annotateWithLineage cid lin a = a := by
  unfold annotateWithLineage
  cases latestRelocation lin.relocations with
  | none => rfl
  | some latest => exact if_neg h

theorem annotateWithLineage_noreloc (cid : String) (lin : FranchiseLineage)
    (a : AnnotatedRow) (h : latestRelocation lin.relocations = none) :
    annotateWithLineage cid lin a = a := by
  unfold annotateWithLineage
  rw [h]

theorem annotateWithLineage_fields (cid : String) (lin : FranchiseLineage)
    (a : AnnotatedRow) (latest : RelocationEvent)
    (hlat : latestRelocation lin.relocations = some latest)
    (hc : a.canonical_franchise = some cid) :
    annotateWithLineage cid lin a =
      { a with
        is_relocated_franchise := true
        relocation_year := some latest.year
        pre_relocation := if a.row.yearID < latest.year then true else a.pre_relocation
        post_relocation := if latest.year ≤ a.row.yearID then true else a.post_relocation
        years_since_relocation :=
          if latest.year ≤ a.row.yearID then some (a.row.yearID - latest.year)
          else a.years_since_relocation
        relocation_era := applyEraLabels lin.relocations a.row.yearID a.relocation_era } := by
  unfold annotateWithLineage
  rw [hlat]
  exact if_pos hc

theorem annotateRowAll_canonical (lineages : List (String × FranchiseLineage))
    (a : AnnotatedRow) :
    (annotateRowAll lineages a).canonical_franchise = a.canonical_franchise := by
  induction lineages generalizing a with
  | nil => rfl
  | cons p rest ih =>
    simp only [annotateRowAll, List.foldl_cons]
    rw [show rest.foldl (fun b q => annotateWithLineage q.1 q.2 b)
        (annotateWithLineage p.1 p.2 a) = annotateRowAll rest (annotateWithLineage p.1 p.2 a)
      from rfl]
    rw [ih (annotateWithLineage p.1 p.2 a), annotateWithLineage_canonical]

theorem annotateRowAll_row (lineages : List (String × FranchiseLineage)) (a : AnnotatedRow) :
    (annotateRowAll lineages a).row = a.row := by
  induction lineages generalizing a with
  | nil => rfl
  | cons p rest ih =>
    simp only [annotateRowAll, List.foldl_cons]
    rw [show rest.foldl (fun b q => annotateWithLineage q.1 q.2 b)
        (annotateWithLineage p.1 p.2 a) = annotateRowAll rest (annotateWithLineage p.1 p.2 a)
      from rfl]
    rw [ih (annotateWithLineage p.1 p.2 a), annotateWithLineage_row]

theorem annotateRowAll_skip (lineages : List (String × FranchiseLineage)) (a : AnnotatedRow)
    (h : ∀ p ∈ lineages, a.canonical_franchise ≠ some p.1) :
    annotateRowAll lineages a = a := by
  induction lineages with
  | nil => rfl
  | cons p rest ih =>
    simp only [annotateRowAll, List.foldl_cons]
    rw [annotateWithLineage_skip p.1 p.2 a (h p (List.mem_cons_self p rest))]
    exact ih (fun q hq => h q (List.mem_cons_of_mem p hq))

theorem annotateRowAll_eq_single (lineages : List (String × FranchiseLineage)) (c : String)
    (L : FranchiseLineage) (a : AnnotatedRow)
    (hnd : (lineages.map Prod.fst).Nodup) (hmem : (c, L) ∈ lineages)
    (hc : a.canonical_franchise = some c) :
    annotateRowAll lineages a = annotateWithLineage c L a := by
  induction lineages with
  | nil => cases hmem
  | cons p rest ih =>
    rw [List.map_cons, List.nodup_cons] at hnd
    rcases List.mem_cons.mp hmem with heq | hrest
    · obtain rfl : p = (c, L) := heq.symm
      simp only [annotateRowAll, List.foldl_cons]
      rw [show rest.foldl (fun b q => annotateWithLineage q.1 q.2 b)
          (annotateWithLineage c L a) = annotateRowAll rest (annotateWithLineage c L a)
        from rfl]
      apply annotateRowAll_skip
      intro q hq hcan
      rw [annotateWithLineage_canonical, hc] at hcan
      have h1 : c = q.1 := by injection hcan
      have hq1 : q.1 ∈ rest.map Prod.fst := List.mem_map_of_mem Prod.fst hq
      rw [← h1] at hq1
      exact hnd.1 hq1
    · have hne : a.canonical_franchise ≠ some p.1 := by
        rw [hc]
        intro h
        have h1 : c = p.1 := by injection h
        have : c ∈ rest.map Prod.fst := by
          have := List.mem_map_of_mem Prod.fst hrest
          simpa using this
        exact hnd.1 (h1 ▸ this)
      simp only [annotateRowAll, List.foldl_cons]
      rw [annotateWithLineage_skip p.1 p.2 a hne]
      exact ih hnd.2 hrest

theorem dictGet_some_mem {β : Type} (m : List (String × β)) (k : String) (v : β)
    (h : dictGet m k = some v) : (k, v) ∈ m := by
  induction m with
  | nil => cases h
  | cons p rest ih =>
    obtain ⟨a, b⟩ := p
    by_cases hk : k = a
    · rw [hk]
      simp only [dictGet, if_pos hk] at h
      have : b = v := by injection h
      rw [← this]
      exact List.mem_cons_self _ _
    · simp only [dictGet, if_neg hk] at h
      exact List.mem_cons_of_mem _ (ih h)

theorem latestRelocation_eq_none_iff (l : List RelocationEvent) :
    latestRelocation l = none ↔ l = [] := by
  cases l <;> simp [latestRelocation]

theorem foldl_latest_spec (r0 : RelocationEvent) (rs : List RelocationEvent) :
    (rs.foldl (fun best e => if best.year < e.year then e else best) r0) ∈ r0 :: rs
    ∧ ∀ e ∈ r0 :: rs,
        e.year ≤ (rs.foldl (fun best e => if best.year < e.year then e else best) r0).year := by
  induction rs generalizing r0 with
  | nil =>
    refine ⟨List.mem_cons_self _ _, ?_⟩
    intro e he
    rcases List.mem_cons.mp he with h | h
    · rw [h]
      exact le_refl _
    · cases h
  | cons r rs ih =>
    simp only [List.foldl_cons]
    by_cases hc : r0.year < r.year
    · rw [if_pos hc]
      obtain ⟨ihmem, ihbound⟩ := ih r
      refine ⟨List.mem_cons_of_mem r0 ihmem, ?_⟩
      intro e he
      rcases List.mem_cons.mp he with he0 | he'
      · rw [he0]
        exact le_trans (le_of_lt hc) (ihbound r (List.mem_cons_self _ _))
      · exact ihbound e he'
    · rw [if_neg hc]
      obtain ⟨ihmem, ihbound⟩ := ih r0
      refine ⟨?_, ?_⟩
      · rcases List.mem_cons.mp ihmem with h | h
        · exact List.mem_cons.mpr (Or.inl h)
        · exact List.mem_cons_of_mem r0 (List.mem_cons_of_mem r h)
      · intro e he
        rcases List.mem_cons.mp he with he0 | he'
        · exact ihbound e (he0 ▸ List.mem_cons_self _ _)
        · rcases List.mem_cons.mp he' with her | hers
          · rw [her]
            exact le_trans (le_of_not_lt hc) (ihbound r0 (List.mem_cons_self _ _))
          · exact ihbound e (List.mem_cons_of_mem r0 hers)

theorem latestRelocation_mem_and_max (l : List RelocationEvent) (latest : RelocationEvent)
    (h : latestRelocation l = some latest) :
    latest ∈ l ∧ ∀ e ∈ l, e.year ≤ latest.year := by
  cases l with
  | nil => cases h
  | cons r rs =>
    have h' : rs.foldl (fun best e => if best.year < e.year then e else best) r = latest := by
      injection h
    obtain ⟨hmem, hbound⟩ := foldl_latest_spec r rs
    rw [h'] at hmem hbound
    exact ⟨hmem, hbound⟩

/-- C2: for every annotated output row that belongs to a lineage with at
least one relocation, the primary relocation is the lineage's maximum
relocation year; `pre_relocation` holds exactly for years strictly below it
and `post_relocation` exactly at-or-above it, exactly one of the two holds,
and `years_since_relocation` is `some (year - primary)` exactly on the post
side and `none` otherwise. -/
theorem c2_pre_post_partition (rows : List SeasonRow) (a : AnnotatedRow)
    (ha : a ∈ get_analysis_ready_data correctedLineages correctedMapping rows)
    (c : String) (L : FranchiseLineage)
    (hc : a.canonical_franchise = some c)
    (hL : dictGet correctedLineages c = some L)
    (latest : RelocationEvent)
    (hlat : latestRelocation L.relocations = some latest) :
    (latest ∈ L.relocations ∧ ∀ e ∈ L.relocations, e.year ≤ latest.year) ∧
    a.is_relocated_franchise = true ∧
    a.relocation_year = some latest.year ∧
    (a.pre_relocation = true ↔ a.row.yearID < latest.year) ∧
    (a.post_relocation = true ↔ latest.year ≤ a.row.yearID) ∧
    ((a.pre_relocation = true ∧ a.post_relocation = false) ∨
      (a.pre_relocation = false ∧ a.post_relocation = true)) ∧
    ((a.post_relocation = true →
        a.years_since_relocation = some (a.row.yearID - latest.year)) ∧
      (a.post_relocation = false → a.years_since_relocation = none)) := by
  rw [get_analysis_ready_data_eq] at ha
  obtain ⟨r, hr, rfl⟩ := List.mem_map.mp ha
  have hcan0 : (initAnnotated (dictGet correctedMapping r.franchID) r).canonical_franchise
      = some c := by
    rw [← annotateRowAll_canonical correctedLineages]
    exact hc
  have hnd : (correctedLineages.map Prod.fst).Nodup := by decide
  have hmem := dictGet_some_mem _ _ _ hL
  rw [annotateRowAll_eq_single correctedLineages c L _ hnd hmem hcan0,
      annotateWithLineage_fields c L _ latest hlat hcan0]
  refine ⟨latestRelocation_mem_and_max _ _ hlat, ?_⟩
  by_cases hy : r.yearID < latest.year
  · have hny : ¬ latest.year ≤ r.yearID := by omega
    simp [initAnnotated, hy, hny]
  · have hny : latest.year ≤ r.yearID := by omega
    simp [initAnnotated, hy, hny]

/-- A 1970 Atlanta season row. -/
def rATL1970 : SeasonRow := ⟨1970, "ATL", "ATL", "NL", "Atlanta Braves", 76, 86, 162, 0⟩

/-- The annotated output of `rATL1970` under the corrected registry. -/
def aATL1970 : AnnotatedRow := ⟨rATL1970, some "ATL", true, some 1966, false, true, some 4, "none"⟩

/-- The primary (most recent) ATL relocation. -/
def atlPrimary : RelocationEvent :=
  ⟨1966, "Milwaukee", "Atlanta", "Milwaukee Braves", "Atlanta Braves", ""⟩

/-- Witness for C2 at the 1970 ATL row: 1966 is the primary (maximum)
relocation year and the pre/post fields behave as the theorem states. -/
theorem c2_pre_post_partition_witness :
    aATL1970 ∈ get_analysis_ready_data correctedLineages correctedMapping [rATL1970] ∧
    ((atlPrimary ∈ corrected_ATL.relocations ∧
        ∀ e ∈ corrected_ATL.relocations, e.year ≤ atlPrimary.year) ∧
      aATL1970.is_relocated_franchise = true ∧
      aATL1970.relocation_year = some atlPrimary.year ∧
      (aATL1970.pre_relocation = true ↔ aATL1970.row.yearID < atlPrimary.year) ∧
      (aATL1970.post_relocation = true ↔ atlPrimary.year ≤ aATL1970.row.yearID) ∧
      ((aATL1970.pre_relocation = true ∧ aATL1970.post_relocation = false) ∨
        (aATL1970.pre_relocation = false ∧ aATL1970.post_relocation = true)) ∧
      ((aATL1970.post_relocation = true →
          aATL1970.years_since_relocation = some (aATL1970.row.yearID - atlPrimary.year)) ∧
        (aATL1970.post_relocation = false → aATL1970.years_since_relocation = none))) := by
  have hmem : aATL1970 ∈ get_analysis_ready_data correctedLineages correctedMapping [rATL1970] := by
    rw [show get_analysis_ready_data correctedLineages correctedMapping [rATL1970]
        = [aATL1970] from rfl]
    exact List.mem_singleton.mpr rfl
  exact ⟨hmem, c2_pre_post_partition [rATL1970] aATL1970 hmem "ATL" corrected_ATL rfl rfl
    atlPrimary rfl⟩

/-- A 1960 Atlanta season row. -/
def rATL1960 : SeasonRow := ⟨1960, "ML1", "ATL", "NL", "Milwaukee Braves", 88, 66, 154, 0⟩

/-- A 1955 Atlanta season row. -/
def rATL1955 : SeasonRow := ⟨1955, "ML1", "ATL", "NL", "Milwaukee Braves", 85, 69, 154, 0⟩

/-- A 1965 Atlanta season row. -/
def rATL1965 : SeasonRow := ⟨1965, "ML1", "ATL", "NL", "Milwaukee Braves", 86, 76, 162, 0⟩

/-- C3 counterexample: for the ATL lineage (relocations 1953 and 1966) the
year 1965 does NOT fall in the overlap of both ±3-year era windows: it lies
in the 1966 window but outside the 1953 window (1965 > 1953 + 3), so the
claimed overlap is empty and last-write-wins is not what resolves 1965. -/
theorem c3_overlap_counterexample :
    corrected_ATL.relocations.map (fun e => e.year) = [1953, 1966] ∧
    inEraWindow 1953 1965 = false ∧
    inEraWindow 1966 1965 = true := by decide

/-- C3 amended: with the ATL lineage's two relocations (1953, 1966), 1966 is
the single pre/post split: 1960 is pre-relocation, 1970 is post-relocation
with `years_since_relocation = 4`, 1955 gets era `around_1953`, and 1965 gets
era `around_1966` because it lies only in the 1966 window (the two windows
are disjoint, so the era loop's last-write-wins order is not exercised). -/
theorem c3_atl_two_relocation_annotation :
    (get_analysis_ready_data correctedLineages correctedMapping
        [rATL1960, rATL1970, rATL1955, rATL1965]).map
        (fun a => (a.relocation_year, a.pre_relocation, a.post_relocation,
          a.years_since_relocation, a.relocation_era))
      = [(some 1966, true, false, none, "none"),
         (some 1966, false, true, some 4, "none"),
         (some 1966, true, false, none, "around_1953"),
         (some 1966, true, false, none, "around_1966")] := rfl

/-- The per-lineage loop of `create_annotated_dataset` as a per-row fold. -/
def annotateRowAllFM (lineages : List (String × FranchiseLineage)) (a : AnnotatedRowFM) :
    AnnotatedRowFM :=
  lineages.foldl (fun b p => annotateWithLineageFM p.1 p.2 b) a

theorem annotateWithLineageFM_row (cid : String) (lin : FranchiseLineage)
    (a : AnnotatedRowFM) : (annotateWithLineageFM cid lin a).row = a.row := by
  unfold annotateWithLineageFM
  cases latestRelocation lin.relocations with
  | none => rfl
  | some latest => dsimp only; split <;> rfl

theorem annotateWithLineageFM_canonical (cid : String) (lin : FranchiseLineage)
    (a : AnnotatedRowFM) :
    (annotateWithLineageFM cid lin a).canonical_franchise = a.canonical_franchise := by
  unfold annotateWithLineageFM
  cases latestRelocation lin.relocations with
  | none => rfl
  | some latest => dsimp only; split <;> rfl

theorem annotateWithLineageFM_skip (cid : String) (lin : FranchiseLineage)
    (a : AnnotatedRowFM) (h : a.canonical_franchise ≠ some cid) :
    annotateWithLineageFM cid lin a = a := by
  unfold annotateWithLineageFM
  cases latestRelocation lin.relocations with
  | none => rfl
  | some latest => exact if_neg h

theorem annotateRowAllFM_row (lineages : List (String × FranchiseLineage))
    (a : AnnotatedRowFM) : (annotateRowAllFM lineages a).row = a.row := by
  induction lineages generalizing a with
  | nil => rfl
  | cons p rest ih =>
    simp only [annotateRowAllFM, List.foldl_cons]
    rw [show rest.foldl (fun b q => annotateWithLineageFM q.1 q.2 b)
        (annotateWithLineageFM p.1 p.2 a)
        = annotateRowAllFM rest (annotateWithLineageFM p.1 p.2 a) from rfl]
    rw [ih (annotateWithLineageFM p.1 p.2 a), annotateWithLineageFM_row]

theorem annotateRowAllFM_canonical (lineages : List (String × FranchiseLineage))
    (a : AnnotatedRowFM) :
    (annotateRowAllFM lineages a).canonical_franchise = a.canonical_franchise := by
  induction lineages generalizing a with
  | nil => rfl
  | cons p rest ih =>
    simp only [annotateRowAllFM, List.foldl_cons]
    rw [show rest.foldl (fun b q => annotateWithLineageFM q.1 q.2 b)
        (annotateWithLineageFM p.1 p.2 a)
        = annotateRowAllFM rest (annotateWithLineageFM p.1 p.2 a) from rfl]
    rw [ih (annotateWithLineageFM p.1 p.2 a), annotateWithLineageFM_canonical]

theorem annotateRowAllFM_skip (lineages : List (String × FranchiseLineage))
    (a : AnnotatedRowFM) (h : ∀ p ∈ lineages, a.canonical_franchise ≠ some p.1) :
    annotateRowAllFM lineages a = a := by
  induction lineages with
  | nil => rfl
  | cons p rest ih =>
    simp only [annotateRowAllFM, List.foldl_cons]
    rw [annotateWithLineageFM_skip p.1 p.2 a (h p (List.mem_cons_self p rest))]
    exact ih (fun q hq => h q (List.mem_cons_of_mem p hq))

/-- C4 counterexample: a row whose raw identifier resolves to no lineage in
the corrected registry does not appear in `get_analysis_ready_data`'s output
at all (the function filters it out at entry), contradicting the claim that
it appears with default relocation fields. -/
def rUnmapped : SeasonRow := ⟨2000, "XXX", "XXX", "NL", "Nobody", 81, 81, 162, 0⟩

/-- C4 counterexample theorem: `XXX` resolves to nothing, and the annotated
output of the one-row frame is empty. -/
theorem c4_unresolved_row_filtered_counterexample :
    dictGet correctedMapping "XXX" = none ∧
    get_analysis_ready_data correctedLineages correctedMapping [rUnmapped] = [] :=
  ⟨rfl, rfl⟩

/-- C4 amended: `get_analysis_ready_data` keeps exactly the rows whose
identifier resolves (rows resolving to no lineage are filtered out at
entry, not passed through); every kept row of a zero-relocation lineage has
all relocation fields at their defaults.  `create_annotated_dataset`
(`franchise_mapping.py`) keeps every input row, and its unresolved rows keep
all defaults (that function has no `relocation_era` column at all). -/
theorem c4_annotator_row_retention (rows : List SeasonRow) :
    ((get_analysis_ready_data correctedLineages correctedMapping rows).map (fun a => a.row)
        = rows.filter (fun r => (dictGet correctedMapping r.franchID).isSome)) ∧
    (∀ a ∈ get_analysis_ready_data correctedLineages correctedMapping rows,
      ∀ c L, a.canonical_franchise = some c → dictGet correctedLineages c = some L →
        L.relocations = [] →
        a.is_relocated_franchise = false ∧ a.pre_relocation = false ∧
        a.post_relocation = false ∧ a.relocation_year = none ∧
        a.years_since_relocation = none ∧ a.relocation_era = "none") ∧
    ((create_annotated_dataset legacyLineages legacyMapping rows).map (fun a => a.row)
        = rows) ∧
    (∀ a ∈ create_annotated_dataset legacyLineages legacyMapping rows,
      a.canonical_franchise = none →
        a.is_relocated_franchise = false ∧ a.pre_relocation = false ∧
        a.post_relocation = false ∧ a.relocation_year = none ∧
        a.years_since_relocation = none) := by
  refine ⟨?_, ?_, ?_, ?_⟩
  · rw [get_analysis_ready_data_eq, List.map_map]
    have hfun : ((fun a => a.row) ∘ fun r =>
        annotateRowAll correctedLineages (initAnnotated (dictGet correctedMapping r.franchID) r))
        = fun r => r := by
      funext r
      simp only [Function.comp]
      rw [annotateRowAll_row]
      rfl
    rw [hfun]
    simp
  · intro a ha c L hc hL hrel
    rw [get_analysis_ready_data_eq] at ha
    obtain ⟨r, hr, rfl⟩ := List.mem_map.mp ha
    have hcan0 : (initAnnotated (dictGet correctedMapping r.franchID) r).canonical_franchise
        = some c := by
      rw [← annotateRowAll_canonical correctedLineages]
      exact hc
    have hnd : (correctedLineages.map Prod.fst).Nodup := by decide
    have hmem := dictGet_some_mem _ _ _ hL
    rw [annotateRowAll_eq_single correctedLineages c L _ hnd hmem hcan0,
        annotateWithLineage_noreloc c L _ ((latestRelocation_eq_none_iff _).mpr hrel)]
    exact ⟨rfl, rfl, rfl, rfl, rfl, rfl⟩
  · rw [create_annotated_dataset_eq, List.map_map]
    have hfun : ((fun a : AnnotatedRowFM => a.row) ∘ fun r =>
        legacyLineages.foldl (fun b p => annotateWithLineageFM p.1 p.2 b)
          (initAnnotatedFM (dictGet legacyMapping r.franchID) r))
        = fun r => r := by
      funext r
      simp only [Function.comp]
      rw [show legacyLineages.foldl (fun b p => annotateWithLineageFM p.1 p.2 b)
          (initAnnotatedFM (dictGet legacyMapping r.franchID) r)
          = annotateRowAllFM legacyLineages
              (initAnnotatedFM (dictGet legacyMapping r.franchID) r) from rfl]
      rw [annotateRowAllFM_row]
      rfl
    rw [hfun]
    simp
  · intro a ha hc
    rw [create_annotated_dataset_eq] at ha
    obtain ⟨r, hr, rfl⟩ := List.mem_map.mp ha
    rw [show legacyLineages.foldl (fun b p => annotateWithLineageFM p.1 p.2 b)
        (initAnnotatedFM (dictGet legacyMapping r.franchID) r)
        = annotateRowAllFM legacyLineages
            (initAnnotatedFM (dictGet legacyMapping r.franchID) r) from rfl] at hc ⊢
    have hcan0 : (initAnnotatedFM (dictGet legacyMapping r.franchID) r).canonical_franchise
        = none := by
      rw [← annotateRowAllFM_canonical legacyLineages]
      exact hc
    rw [annotateRowAllFM_skip legacyLineages _
      (fun p _ => by rw [hcan0]; exact fun h => Option.noConfusion h)]
    exact ⟨rfl, rfl, rfl, rfl, rfl⟩

/-- A 2000 Boston season row (`BOS` is a zero-relocation lineage). -/
def rBOS2000 : SeasonRow := ⟨2000, "BOS", "BOS", "AL", "Boston Red Sox", 85, 77, 162, 0⟩

/-- The annotated output of `rBOS2000`: all defaults. -/
def aBOS2000 : AnnotatedRow := initAnnotated (some "BOS") rBOS2000

/-- The FM-annotated output of the unmapped row: unresolved, all defaults. -/
def fUnmapped : AnnotatedRowFM := initAnnotatedFM none rUnmapped

/-- Witness for C4 at concrete frames: the unresolved row is dropped and the
zero-relocation `BOS` row is kept with defaults by the corrected annotator;
`create_annotated_dataset` keeps the unresolved row with defaults. -/
theorem c4_annotator_row_retention_witness :
    ((get_analysis_ready_data correctedLineages correctedMapping [rUnmapped, rBOS2000]).map
        (fun a => a.row) = [rBOS2000]) ∧
    (aBOS2000.is_relocated_franchise = false ∧ aBOS2000.pre_relocation = false ∧
      aBOS2000.post_relocation = false ∧ aBOS2000.relocation_year = none ∧
      aBOS2000.years_since_relocation = none ∧ aBOS2000.relocation_era = "none") ∧
    ((create_annotated_dataset legacyLineages legacyMapping [rUnmapped]).map
        (fun a => a.row) = [rUnmapped]) ∧
    (fUnmapped.is_relocated_franchise = false ∧ fUnmapped.pre_relocation = false ∧
      fUnmapped.post_relocation = false ∧ fUnmapped.relocation_year = none ∧
      fUnmapped.years_since_relocation = none) := by
  have h1 := c4_annotator_row_retention [rUnmapped, rBOS2000]
  have h2 := c4_annotator_row_retention [rUnmapped]
  have hmemB : aBOS2000 ∈ get_analysis_ready_data correctedLineages correctedMapping
      [rUnmapped, rBOS2000] := by
    rw [show get_analysis_ready_data correctedLineages correctedMapping [rUnmapped, rBOS2000]
        = [aBOS2000] from rfl]
    exact List.mem_singleton.mpr rfl
  have hmemU : fUnmapped ∈ create_annotated_dataset legacyLineages legacyMapping
      [rUnmapped] := by
    rw [show create_annotated_dataset legacyLineages legacyMapping [rUnmapped]
        = [fUnmapped] from rfl]
    exact List.mem_singleton.mpr rfl
  exact ⟨h1.1, h1.2.1 aBOS2000 hmemB "BOS" corrected_BOS rfl rfl rfl,
    h2.2.2.1, h2.2.2.2 fUnmapped hmemU rfl⟩

/-- C7: the calculation-accuracy check never produces a `fail`: its finding
is a `warning` exactly when some row breaks the 1-game or 0.01-win-pct
tolerance, and a `pass` exactly when no row does. -/
theorem c7_calculation_accuracy_never_fail (df : DataFrame) :
    ((calcAccuracyFinding df.rows).status = "warning"
      ↔ ∃ r ∈ df.rows, gMismatch r = true ∨ pctMismatch r = true) ∧
    ((calcAccuracyFinding df.rows).status = "pass"
      ↔ ∀ r ∈ df.rows, gMismatch r = false ∧ pctMismatch r = false) ∧
    (calcAccuracyFinding df.rows).status ≠ "fail" := by
  unfold calcAccuracyFinding
  by_cases hcond : 0 < df.rows.countP gMismatch ∨ 0 < df.rows.countP pctMismatch
  · rw [if_pos hcond]
    refine ⟨⟨fun _ => ?_, fun _ => rfl⟩,
      ⟨fun h => absurd h (show ("warning" : String) ≠ "pass" by decide), fun hall => ?_⟩,
      show ("warning" : String) ≠ "fail" by decide⟩
    · rcases hcond with h | h
      · obtain ⟨r, hr, hp⟩ := List.countP_pos_iff.mp h
        exact ⟨r, hr, Or.inl hp⟩
      · obtain ⟨r, hr, hp⟩ := List.countP_pos_iff.mp h
        exact ⟨r, hr, Or.inr hp⟩
    · exfalso
      rcases hcond with h | h
      · obtain ⟨r, hr, hp⟩ := List.countP_pos_iff.mp h
        have hf := (hall r hr).1
        rw [hp] at hf
        cases hf
      · obtain ⟨r, hr, hp⟩ := List.countP_pos_iff.mp h
        have hf := (hall r hr).2
        rw [hp] at hf
        cases hf
  · rw [if_neg hcond]
    push_neg at hcond
    have hg : df.rows.countP gMismatch = 0 := by omega
    have hp : df.rows.countP pctMismatch = 0 := by omega
    refine ⟨⟨fun h => absurd h (show ("pass" : String) ≠ "warning" by decide), fun hex => ?_⟩,
      ⟨fun _ => ?_, fun _ => rfl⟩, show ("pass" : String) ≠ "fail" by decide⟩
    · exfalso
      obtain ⟨r, hr, hor⟩ := hex
      rcases hor with hx | hx
      · exact (List.countP_eq_zero.mp hg r hr) hx
      · exact (List.countP_eq_zero.mp hp r hr) hx
    · intro r hr
      constructor
      · have := List.countP_eq_zero.mp hg r hr
        exact Bool.eq_false_iff.mpr this
      · have := List.countP_eq_zero.mp hp r hr
        exact Bool.eq_false_iff.mpr this

/-- Scenario row of C7: `W=120, L=50` (recomputed win percentage 12/17, about
0.706) but stored `W_pct = 0.95`, stored `G = 170` (no game mismatch). -/
def rCalcScenario : SeasonRow := ⟨1999, "AAA", "AAA", "NL", "Testers", 120, 50, 170, 0.95⟩

/-- Witness for C7: the scenario row triggers a `warning`, not a `fail`. -/
theorem c7_calculation_accuracy_never_fail_witness :
    (calcAccuracyFinding [rCalcScenario]).status = "warning" ∧
    (calcAccuracyFinding [rCalcScenario]).status ≠ "fail" := by
  have h := c7_calculation_accuracy_never_fail ⟨requiredCols, [rCalcScenario]⟩
  have hpct : pctMismatch rCalcScenario = true := by
    unfold pctMismatch rCalcScenario
    rw [if_neg (by norm_num)]
    rw [decide_eq_true_eq]
    rw [abs_of_pos] <;> norm_num
  exact ⟨h.1.mpr ⟨rCalcScenario, by simp, Or.inr hpct⟩, h.2.2⟩

theorem requireCol_ok (df : DataFrame) (c : String) (h : c ∈ df.cols) :
    requireCol df c = Except.ok () := by
  unfold requireCol
  rw [if_pos h]

/-- C6: with the accessed columns present, one cross-source fact check
resolves as: no matching row gives a `warning`; a first matching row with a
wins or losses mismatch gives a `fail` whose message cites the expected
record; a first matching row agreeing on both gives a `pass`. -/
theorem c6_cross_source_fact_check (df : DataFrame)
    (fact : Int × String × Int × Int × String)
    (hy : "yearID" ∈ df.cols) (ht : "teamID" ∈ df.cols)
    (hw : "W" ∈ df.cols) (hl : "L" ∈ df.cols) :
    (df.rows.filter (fun r => r.yearID = fact.1 ∧ r.teamID = fact.2.1) = [] →
      checkFact df fact = Except.ok ⟨"historical_facts", "warning",
        "Missing data for known historical fact: " ++ fact.2.2.2.2
          ++ " (" ++ toString fact.1 ++ ")"⟩) ∧
    (∀ row rest,
      df.rows.filter (fun r => r.yearID = fact.1 ∧ r.teamID = fact.2.1) = row :: rest →
      ((row.W ≠ fact.2.2.1 ∨ row.L ≠ fact.2.2.2.1 →
        checkFact df fact = Except.ok ⟨"historical_facts", "fail",
          "Historical fact mismatch: " ++ fact.2.2.2.2 ++ " - Expected "
            ++ toString fact.2.2.1 ++ "-" ++ toString fact.2.2.2.1 ++ ", got "
            ++ toString row.W ++ "-" ++ toString row.L⟩) ∧
       (row.W = fact.2.2.1 ∧ row.L = fact.2.2.2.1 →
        checkFact df fact = Except.ok ⟨"historical_facts", "pass",
          "Confirmed historical fact: " ++ fact.2.2.2.2⟩))) := by
  obtain ⟨year, team_id, exp_w, exp_l, description⟩ := fact
  constructor
  · intro hemp
    unfold checkFact
    dsimp only at hemp ⊢
    rw [requireCol_ok df "yearID" hy, exceptOkBind, requireCol_ok df "teamID" ht,
      exceptOkBind, hemp]
    rfl
  · intro row rest hfilter
    constructor
    · intro hne
      unfold checkFact
      dsimp only at hfilter hne ⊢
      rw [requireCol_ok df "yearID" hy, exceptOkBind, requireCol_ok df "teamID" ht,
        exceptOkBind, hfilter]
      dsimp only
      rw [requireCol_ok df "W" hw, exceptOkBind, requireCol_ok df "L" hl, exceptOkBind]
      rw [if_pos hne]
      rfl
    · intro heq
      unfold checkFact
      dsimp only at hfilter heq ⊢
      rw [requireCol_ok df "yearID" hy, exceptOkBind, requireCol_ok df "teamID" ht,
        exceptOkBind, hfilter]
      dsimp only
      rw [requireCol_ok df "W" hw, exceptOkBind, requireCol_ok df "L" hl, exceptOkBind]
      rw [if_neg]
      · rfl
      · intro hor
        rcases hor with hx | hx
        · exact hx heq.1
        · exact hx heq.2

/-- The Cubs 1906 row with the correct 116-36 record. -/
def rCubs1906 : SeasonRow := ⟨1906, "CHN", "CHC", "NL", "Chicago Cubs", 116, 36, 152, 0⟩

/-- The Cubs 1906 row with losses corrupted to 40. -/
def rCubs1906bad : SeasonRow := ⟨1906, "CHN", "CHC", "NL", "Chicago Cubs", 116, 40, 156, 0⟩

/-- The Cubs entry of the `known_facts` table. -/
def cubsFact : Int × String × Int × Int × String :=
  (1906, "CHN", 116, 36, "Cubs record-setting season")

/-- Witness for C6 at the 1906 Cubs fact: the correct row passes; changing
`L` to 40 flips the finding to `fail` citing the expected 116-36 record. -/
theorem c6_cross_source_fact_check_witness :
    cubsFact ∈ knownFacts ∧
    checkFact ⟨requiredCols, [rCubs1906]⟩ cubsFact
      = Except.ok ⟨"historical_facts", "pass",
          "Confirmed historical fact: Cubs record-setting season"⟩ ∧
    checkFact ⟨requiredCols, [rCubs1906bad]⟩ cubsFact
      = Except.ok ⟨"historical_facts", "fail",
          "Historical fact mismatch: Cubs record-setting season - Expected 116-36, got 116-40"⟩ := by
  refine ⟨by decide, ?_, ?_⟩
  · exact ((c6_cross_source_fact_check ⟨requiredCols, [rCubs1906]⟩ cubsFact
      (by decide) (by decide) (by decide) (by decide)).2 rCubs1906 [] rfl).2 ⟨rfl, rfl⟩
  · exact ((c6_cross_source_fact_check ⟨requiredCols, [rCubs1906bad]⟩ cubsFact
      (by decide) (by decide) (by decide) (by decide)).2 rCubs1906bad [] rfl).1
      (Or.inr (by decide))

/-- C8: every relocated franchise with data is classified sufficient exactly
when it has at least 10 seasons strictly before and 10 at-or-after its
primary relocation year; the aggregate finding is a single `warning` exactly
when some recorded franchise is insufficient, and a single `pass` exactly
when all are sufficient. -/
theorem c8_statistical_sufficiency (lineages : List (String × FranchiseLineage))
    (rows : List SeasonRow) :
    (∀ d ∈ franchiseDataCounts lineages rows,
      d.sufficient_for_analysis = true ↔ (10 ≤ d.pre_seasons ∧ 10 ≤ d.post_seasons)) ∧
    (∀ cid lin latest, (cid, lin) ∈ lineages →
      latestRelocation lin.relocations = some latest →
      rows.filter (fun r => lin.lahman_ids.contains r.franchID) ≠ [] →
      ∃ d ∈ franchiseDataCounts lineages rows,
        countFor rows cid lin = some d ∧ d.franchise = cid ∧
        d.relocation_year = latest.year ∧
        d.pre_seasons = ((rows.filter (fun r => lin.lahman_ids.contains r.franchID)).filter
            (fun r => r.yearID < latest.year)).length ∧
        d.post_seasons = ((rows.filter (fun r => lin.lahman_ids.contains r.franchID)).filter
            (fun r => latest.year ≤ r.yearID)).length) ∧
    ((check_data_completeness lineages rows).map (fun v => v.status) = ["warning"]
      ↔ ∃ d ∈ franchiseDataCounts lineages rows, d.sufficient_for_analysis = false) ∧
    ((check_data_completeness lineages rows).map (fun v => v.status) = ["pass"]
      ↔ ∀ d ∈ franchiseDataCounts lineages rows, d.sufficient_for_analysis = true) := by
  refine ⟨?_, ?_, ?_, ?_⟩
  · intro d hd
    obtain ⟨p, hp, hcount⟩ := List.mem_filterMap.mp hd
    simp only [countFor] at hcount
    split at hcount
    · cases hcount
    · split at hcount
      · cases hcount
      · split at hcount
        · cases hcount
        · split at hcount
          · next hlt =>
            injection hcount with h'
            rw [← h']
            dsimp only
            constructor
            · intro hfalse
              cases hfalse
            · intro h10
              obtain ⟨h10a, h10b⟩ := h10
              exfalso
              omega
          · next hge =>
            injection hcount with h'
            rw [← h']
            dsimp only
            constructor
            · intro _
              constructor <;> omega
            · intro _
              rfl
  · intro cid lin latest hmem hlat hne
    have hrel : lin.relocations.isEmpty = false := by
      cases hl : lin.relocations with
      | nil => rw [hl] at hlat; cases hlat
      | cons a l => rfl
    have hfe : (rows.filter (fun r => lin.lahman_ids.contains r.franchID)).isEmpty = false := by
      cases hmatch : rows.filter (fun r => lin.lahman_ids.contains r.franchID) with
      | nil => exact absurd hmatch hne
      | cons a l => rfl
    by_cases hc : ((rows.filter (fun r => lin.lahman_ids.contains r.franchID)).filter
          (fun r => r.yearID < latest.year)).length < 10
        ∨ ((rows.filter (fun r => lin.lahman_ids.contains r.franchID)).filter
          (fun r => latest.year ≤ r.yearID)).length < 10
    · have hcf : countFor rows cid lin = some
          ⟨cid, latest.year,
            ((rows.filter (fun r => lin.lahman_ids.contains r.franchID)).filter
              (fun r => r.yearID < latest.year)).length,
            ((rows.filter (fun r => lin.lahman_ids.contains r.franchID)).filter
              (fun r => latest.year ≤ r.yearID)).length, false⟩ := by
        simp only [countFor, hrel, hfe, hlat, Bool.false_eq_true, if_false]
        rw [if_pos hc]
      refine ⟨_, List.mem_filterMap.mpr ⟨(cid, lin), hmem, hcf⟩, hcf, rfl, rfl, rfl, rfl⟩
    · have hcf : countFor rows cid lin = some
          ⟨cid, latest.year,
            ((rows.filter (fun r => lin.lahman_ids.contains r.franchID)).filter
              (fun r => r.yearID < latest.year)).length,
            ((rows.filter (fun r => lin.lahman_ids.contains r.franchID)).filter
              (fun r => latest.year ≤ r.yearID)).length, true⟩ := by
        simp only [countFor, hrel, hfe, hlat, Bool.false_eq_true, if_false]
        rw [if_neg hc]
      refine ⟨_, List.mem_filterMap.mpr ⟨(cid, lin), hmem, hcf⟩, hcf, rfl, rfl, rfl, rfl⟩
  · unfold check_data_completeness
    by_cases hpos : 0 < ((franchiseDataCounts lineages rows).filter
        (fun d => d.sufficient_for_analysis = false)).length
    · rw [if_pos hpos]
      constructor
      · intro _
        obtain ⟨x, hx⟩ := List.exists_mem_of_length_pos hpos
        obtain ⟨hxm, hxp⟩ := List.mem_filter.mp hx
        exact ⟨x, hxm, of_decide_eq_true hxp⟩
      · intro _
        rfl
    · rw [if_neg hpos]
      constructor
      · intro hcontra
        exact absurd hcontra (show ¬(["pass"] : List String) = ["warning"] by decide)
      · intro hex
        exfalso
        obtain ⟨d, hd, hflag⟩ := hex
        have hmem : d ∈ (franchiseDataCounts lineages rows).filter
            (fun d => d.sufficient_for_analysis = false) :=
          List.mem_filter.mpr ⟨hd, decide_eq_true hflag⟩
        have := List.length_pos_of_mem hmem
        omega
  · unfold check_data_completeness
    by_cases hpos : 0 < ((franchiseDataCounts lineages rows).filter
        (fun d => d.sufficient_for_analysis = false)).length
    · rw [if_pos hpos]
      constructor
      · intro hcontra
        exact absurd hcontra (show ¬(["warning"] : List String) = ["pass"] by decide)
      · intro hall
        exfalso
        obtain ⟨x, hx⟩ := List.exists_mem_of_length_pos hpos
        obtain ⟨hxm, hxp⟩ := List.mem_filter.mp hx
        have := hall x hxm
        rw [of_decide_eq_true hxp] at this
        cases this
    · rw [if_neg hpos]
      constructor
      · intro _ d hd
        by_contra hflag
        have hf : d.sufficient_for_analysis = false := by
          cases hb : d.sufficient_for_analysis with
          | false => rfl
          | true => exact absurd hb hflag
        have hmem : d ∈ (franchiseDataCounts lineages rows).filter
            (fun d => d.sufficient_for_analysis = false) :=
          List.mem_filter.mpr ⟨hd, decide_eq_true hf⟩
        have := List.length_pos_of_mem hmem
        omega
      · intro _
        rfl

/-- Twenty WSN seasons 1997-2016: 8 strictly before the 2005 relocation and
12 at-or-after it. -/
def wsnRows : List SeasonRow :=
  (List.range 20).map (fun i =>
    ⟨1997 + (i : Int), "WSN", "WSN", "NL", "Nationals", 81, 81, 162, 0⟩)

/-- Twenty MIL seasons 1960-1979: 10 strictly before the 1970 relocation and
10 at-or-after it. -/
def milRows : List SeasonRow :=
  (List.range 20).map (fun i =>
    ⟨1960 + (i : Int), "MIL", "MIL", "AL", "Brewers", 81, 81, 162, 0⟩)

/-- The combined sufficiency-scenario frame. -/
def sufficiencyRows : List SeasonRow := wsnRows ++ milRows

/-- Witness for C8: with 8 pre / 12 post seasons WSN is recorded
insufficient and drives the aggregate finding to `warning`; with 10 / 10
MIL is recorded sufficient. -/
theorem c8_statistical_sufficiency_witness :
    franchiseDataCounts correctedLineages sufficiencyRows
      = [⟨"MIL", 1970, 10, 10, true⟩, ⟨"WSN", 2005, 8, 12, false⟩] ∧
    ((⟨"WSN", 2005, 8, 12, false⟩ : FranchiseDataCount).sufficient_for_analysis = true
      ↔ (10 ≤ 8 ∧ 10 ≤ 12)) ∧
    ((⟨"MIL", 1970, 10, 10, true⟩ : FranchiseDataCount).sufficient_for_analysis = true
      ↔ (10 ≤ 10 ∧ 10 ≤ 10)) ∧
    (check_data_completeness correctedLineages sufficiencyRows).map (fun v => v.status)
      = ["warning"] := by
  have h := c8_statistical_sufficiency correctedLineages sufficiencyRows
  have hcounts : franchiseDataCounts correctedLineages sufficiencyRows
      = [⟨"MIL", 1970, 10, 10, true⟩, ⟨"WSN", 2005, 8, 12, false⟩] := rfl
  refine ⟨hcounts, ?_, ?_, ?_⟩
  · exact h.1 ⟨"WSN", 2005, 8, 12, false⟩ (by rw [hcounts]; simp)
  · exact h.1 ⟨"MIL", 1970, 10, 10, true⟩ (by rw [hcounts]; simp)
  · exact h.2.2.1.mpr ⟨⟨"WSN", 2005, 8, 12, false⟩, by rw [hcounts]; simp, rfl⟩

theorem effectMagnitude_congr_abs (a b : ℝ) (h : |a| = |b|) :
    effectMagnitude a = effectMagnitude b := by
  unfold effectMagnitude
  rw [h]

/-- C9: swapping the pre and post win-percentage samples leaves the pooled
standard deviation unchanged, negates Cohen's d, and preserves its absolute
value and magnitude band. -/
theorem c9_effect_size_symmetry (pre post : List ℝ) (_h1 : pre ≠ []) (_h2 : post ≠ [])
    (hpos : 0 < pooledStd pre post) :
    pooledStd post pre = pooledStd pre post ∧
    cohensD post pre = -(cohensD pre post) ∧
    |cohensD post pre| = |cohensD pre post| ∧
    effectMagnitude (cohensD post pre) = effectMagnitude (cohensD pre post) ∧
    effectFields post pre
      = (some (-(cohensD pre post)), effectMagnitude (cohensD pre post)) := by
  have hsym : pooledStd post pre = pooledStd pre post := by
    unfold pooledStd
    congr 1
    ring
  have hneg : cohensD post pre = -(cohensD pre post) := by
    unfold cohensD
    rw [hsym, show seriesMean pre - seriesMean post
        = -(seriesMean post - seriesMean pre) from by ring, neg_div]
  have habs : |cohensD post pre| = |cohensD pre post| := by
    rw [hneg, abs_neg]
  refine ⟨hsym, hneg, habs, effectMagnitude_congr_abs _ _ habs, ?_⟩
  unfold effectFields
  rw [if_pos (hsym ▸ hpos), hneg,
    effectMagnitude_congr_abs (-(cohensD pre post)) (cohensD pre post) (abs_neg _)]

/-- Witness for C9 at `pre = [0,1,2]`, `post = [1,2,3]` (pooled standard
deviation 1, Cohen's d = 1). -/
theorem c9_effect_size_symmetry_witness :
    ([(0 : ℝ), 1, 2] ≠ []) ∧ ([(1 : ℝ), 2, 3] ≠ []) ∧
    0 < pooledStd [(0 : ℝ), 1, 2] [(1 : ℝ), 2, 3] ∧
    (pooledStd [(1 : ℝ), 2, 3] [(0 : ℝ), 1, 2] = pooledStd [(0 : ℝ), 1, 2] [(1 : ℝ), 2, 3] ∧
     cohensD [(1 : ℝ), 2, 3] [(0 : ℝ), 1, 2]
       = -(cohensD [(0 : ℝ), 1, 2] [(1 : ℝ), 2, 3]) ∧
     |cohensD [(1 : ℝ), 2, 3] [(0 : ℝ), 1, 2]|
       = |cohensD [(0 : ℝ), 1, 2] [(1 : ℝ), 2, 3]| ∧
     effectMagnitude (cohensD [(1 : ℝ), 2, 3] [(0 : ℝ), 1, 2])
       = effectMagnitude (cohensD [(0 : ℝ), 1, 2] [(1 : ℝ), 2, 3]) ∧
     effectFields [(1 : ℝ), 2, 3] [(0 : ℝ), 1, 2]
       = (some (-(cohensD [(0 : ℝ), 1, 2] [(1 : ℝ), 2, 3])),
          effectMagnitude (cohensD [(0 : ℝ), 1, 2] [(1 : ℝ), 2, 3]))) := by
  have hp : pooledStd [(0 : ℝ), 1, 2] [(1 : ℝ), 2, 3] = 1 := by
    unfold pooledStd seriesVar seriesMean
    norm_num [List.sum_cons, List.sum_nil, Real.sqrt_one]
  have hpos : 0 < pooledStd [(0 : ℝ), 1, 2] [(1 : ℝ), 2, 3] := by
    rw [hp]
    norm_num
  exact ⟨by simp, by simp, hpos,
    c9_effect_size_symmetry [(0 : ℝ), 1, 2] [(1 : ℝ), 2, 3] (by simp) (by simp) hpos⟩

/-- C10: the effect-size computation is division-guarded: the pooled
standard deviation is never negative; when it is zero (equivalently, not
positive) the effect size is reported absent with magnitude `'unknown'`, and
only under the guard `pooled_std > 0` is the quotient formed. -/
theorem c10_effect_size_division_guard (pre post : List ℝ) (_h1 : pre ≠ []) (_h2 : post ≠ []) :
    0 ≤ pooledStd pre post ∧
    (pooledStd pre post = 0 → effectFields pre post = (none, "unknown")) ∧
    (¬ 0 < pooledStd pre post → effectFields pre post = (none, "unknown")) ∧
    (0 < pooledStd pre post →
      effectFields pre post
        = (some ((seriesMean post - seriesMean pre) / pooledStd pre post),
           effectMagnitude (cohensD pre post))) := by
  refine ⟨Real.sqrt_nonneg _, ?_, ?_, ?_⟩
  · intro h0
    unfold effectFields
    rw [if_neg]
    rw [h0]
    exact lt_irrefl 0
  · intro hnp
    unfold effectFields
    rw [if_neg hnp]
  · intro hpos
    unfold effectFields
    rw [if_pos hpos]
    rfl

/-- Witness for C10 at the constant samples `pre = [1,1]`, `post = [2,2]`
(both variances zero, pooled standard deviation zero): no division happens
and the fields are `(none, 'unknown')`. -/
theorem c10_effect_size_division_guard_witness :
    ([(1 : ℝ), 1] ≠ []) ∧ ([(2 : ℝ), 2] ≠ []) ∧
    pooledStd [(1 : ℝ), 1] [(2 : ℝ), 2] = 0 ∧
    effectFields [(1 : ℝ), 1] [(2 : ℝ), 2] = (none, "unknown") := by
  have hp : pooledStd [(1 : ℝ), 1] [(2 : ℝ), 2] = 0 := by
    unfold pooledStd seriesVar seriesMean
    norm_num [List.sum_cons, List.sum_nil, Real.sqrt_zero]
  exact ⟨by simp, by simp, hp,
    (c10_effect_size_division_guard [(1 : ℝ), 1] [(2 : ℝ), 2] (by simp) (by simp)).2.1 hp⟩

/-! ## Lemmas: the Validation Engine completes on schema-complete frames -/

theorem exceptPureBind {α β : Type} (a : α) (f : α → Except String β) :
    ((pure a : Except String α) >>= f) = f a := rfl

theorem exists_ok_pure {α : Type} (a : α) :
    ∃ v, (pure a : Except String α) = Except.ok v := ⟨a, rfl⟩

theorem exists_ok_ite {α : Type} (c : Prop) [Decidable c] (x y : Except String α)
    (hx : ∃ v, x = Except.ok v) (hy : ∃ v, y = Except.ok v) :
    ∃ v, (if c then x else y) = Except.ok v := by
  by_cases hc : c
  · rw [if_pos hc]; exact hx
  · rw [if_neg hc]; exact hy

theorem exists_ok_bind {α β : Type} (x : Except String α) (f : α → Except String β)
    (hx : ∃ v, x = Except.ok v) (hf : ∀ v, ∃ w, f v = Except.ok w) :
    ∃ w, (x >>= f) = Except.ok w := by
  obtain ⟨v, hv⟩ := hx
  rw [hv, exceptOkBind]
  exact hf v

/-- An input frame with every column except `yearID`. -/
def dfNoYear : DataFrame :=
  ⟨["teamID", "franchID", "lgID", "name", "W", "L", "G", "W_pct"], []⟩

/-- C5 counterexample: on a frame missing the required `yearID` column,
`run_all_validations` does not return a finding set at all: the
historical-accuracy check's unconditional `df['yearID']` access raises, so
the run aborts even though the schema check of `validate_basic_data_quality`
would have reported the missing column as a `fail` finding. -/
theorem c5_missing_column_abort_counterexample :
    "yearID" ∉ dfNoYear.cols ∧
    (validate_basic_data_quality dfNoYear).map (fun v => (v.check_name, v.status))
      = [("required_columns", "fail"), ("null_values", "pass"),
         ("calculation_accuracy", "pass")] ∧
    run_all_validations dfNoYear legacyLineages 2026
      = Except.error "KeyError: yearID" :=
  ⟨by decide, rfl, rfl⟩

theorem validate_historical_accuracy_ok (df : DataFrame) (y : Int)
    (hy : "yearID" ∈ df.cols) (hG : "G" ∈ df.cols) (ht : "teamID" ∈ df.cols)
    (hn : "name" ∈ df.cols) (hp : "W_pct" ∈ df.cols) :
    ∃ rs, validate_historical_accuracy df y = Except.ok rs := by
  unfold validate_historical_accuracy
  simp only [requireCol_ok df "yearID" hy, requireCol_ok df "G" hG,
    requireCol_ok df "teamID" ht, requireCol_ok df "name" hn,
    requireCol_ok df "W_pct" hp, exceptOkBind, exceptPureBind]
  repeat' first
    | exact exists_ok_pure _
    | exact ⟨_, rfl⟩
    | apply exists_ok_bind
    | apply exists_ok_ite

theorem foldlM_ok {σ α : Type} (step : σ → α → Except String σ) (l : List α)
    (hstep : ∀ s a, ∃ t, step s a = Except.ok t) :
    ∀ s, ∃ t, l.foldlM step s = Except.ok t := by
  induction l with
  | nil => intro s; exact ⟨s, rfl⟩
  | cons a rest ih =>
    intro s
    obtain ⟨t, ht⟩ := hstep s a
    simp only [List.foldlM_cons, ht, exceptOkBind]
    exact ih t

theorem continuityForRelocation_ok (df : DataFrame) (cid : String)
    (sorted : List SeasonRow) (rel : RelocationEvent) (hl : "lgID" ∈ df.cols) :
    ∃ fs, continuityForRelocation df cid sorted rel = Except.ok fs := by
  unfold continuityForRelocation
  simp only [requireCol_ok df "lgID" hl, exceptOkBind, exceptPureBind]
  cases h1 : sorted.filter (fun r => r.yearID = rel.year - 1) with
  | nil => exact ⟨_, rfl⟩
  | cons p ps =>
    cases h2 : sorted.filter (fun r => r.yearID = rel.year) with
    | nil => exact ⟨_, rfl⟩
    | cons q qs => exact ⟨_, rfl⟩

theorem validate_franchise_continuity_ok (df : DataFrame)
    (lineages : List (String × FranchiseLineage))
    (hf : "franchID" ∈ df.cols) (hy : "yearID" ∈ df.cols) (hl : "lgID" ∈ df.cols) :
    ∃ rs, validate_franchise_continuity df lineages = Except.ok rs := by
  unfold validate_franchise_continuity
  refine foldlM_ok _ _ ?_ []
  intro acc p
  simp only [requireCol_ok df "franchID" hf, requireCol_ok df "yearID" hy,
    exceptOkBind, exceptPureBind]
  refine exists_ok_ite _ _ _ (exists_ok_pure _) ?_
  refine foldlM_ok _ _ ?_ acc
  intro s rel
  exact exists_ok_bind _ _ (continuityForRelocation_ok df p.1 _ rel hl)
    (fun fs => exists_ok_pure _)

theorem checkFact_ok (df : DataFrame) (fact : Int × String × Int × Int × String)
    (hy : "yearID" ∈ df.cols) (ht : "teamID" ∈ df.cols)
    (hw : "W" ∈ df.cols) (hl : "L" ∈ df.cols) :
    ∃ v, checkFact df fact = Except.ok v := by
  obtain ⟨year, team_id, exp_w, exp_l, description⟩ := fact
  unfold checkFact
  dsimp only
  simp only [requireCol_ok df "yearID" hy, requireCol_ok df "teamID" ht,
    requireCol_ok df "W" hw, requireCol_ok df "L" hl, exceptOkBind, exceptPureBind]
  cases hm : df.rows.filter (fun r => r.yearID = year ∧ r.teamID = team_id) with
  | nil => exact ⟨_, rfl⟩
  | cons row tail => exact exists_ok_ite _ _ _ (exists_ok_pure _) (exists_ok_pure _)

theorem validate_against_external_sources_ok (df : DataFrame)
    (hy : "yearID" ∈ df.cols) (ht : "teamID" ∈ df.cols)
    (hw : "W" ∈ df.cols) (hl : "L" ∈ df.cols) :
    ∃ rs, validate_against_external_sources df = Except.ok rs := by
  unfold validate_against_external_sources
  refine foldlM_ok _ _ ?_ []
  intro results fact
  exact exists_ok_bind _ _ (checkFact_ok df fact hy ht hw hl)
    (fun r => exists_ok_pure _)

/-- C5 amended: when the frame carries every required column, the run always
completes: `run_all_validations` returns the full finding set, grouped into
the four check categories in order (rather than raising); but a frame
missing a required column aborts the run inside the historical-accuracy
check, so the never-abort claim only holds for schema-complete frames. -/
theorem c5_run_all_validations_completes (df : DataFrame)
    (lineages : List (String × FranchiseLineage)) (current_year : Int)
    (hcols : ∀ c ∈ requiredCols, c ∈ df.cols) :
    ∃ rs, run_all_validations df lineages current_year = Except.ok rs ∧
      rs.map Prod.fst
        = ["basic_quality", "historical_accuracy", "franchise_continuity",
           "external_validation"] := by
  have hy := hcols "yearID" (by decide)
  have ht := hcols "teamID" (by decide)
  have hf := hcols "franchID" (by decide)
  have hlg := hcols "lgID" (by decide)
  have hn := hcols "name" (by decide)
  have hw := hcols "W" (by decide)
  have hl := hcols "L" (by decide)
  have hG := hcols "G" (by decide)
  have hp := hcols "W_pct" (by decide)
  obtain ⟨h1, hh1⟩ := validate_historical_accuracy_ok df current_year hy hG ht hn hp
  obtain ⟨h2, hh2⟩ := validate_franchise_continuity_ok df lineages hf hy hlg
  obtain ⟨h3, hh3⟩ := validate_against_external_sources_ok df hy ht hw hl
  refine ⟨[("basic_quality", validate_basic_data_quality df), ("historical_accuracy", h1),
    ("franchise_continuity", h2), ("external_validation", h3)], ?_, rfl⟩
  unfold run_all_validations
  simp only [hh1, hh2, hh3, exceptOkBind]
  rfl

/-- Witness for C5 amended: a schema-complete empty frame completes with the
four categories. -/
theorem c5_run_all_validations_completes_witness :
    (∀ c ∈ requiredCols, c ∈ (⟨requiredCols, []⟩ : DataFrame).cols) ∧
    ∃ rs, run_all_validations ⟨requiredCols, []⟩ legacyLineages 2026 = Except.ok rs ∧
      rs.map Prod.fst
        = ["basic_quality", "historical_accuracy", "franchise_continuity",
           "external_validation"] :=
  ⟨fun _ hc => hc,
   c5_run_all_validations_completes ⟨requiredCols, []⟩ legacyLineages 2026 (fun _ hc => hc)⟩
